import Mathlib

set_option maxRecDepth 100000
set_option maxHeartbeats 2000000

/-!
Verification of the job-dashboard email classification / staging pipeline.

The definitions below are a shallow embedding of the JavaScript/TypeScript
sources of the repository:

* `scripts/lib/classification-rules.js` (rule tables, `classifyByRules`,
  `isHighVarianceCorrection`),
* `scripts/lib/extraction-rules.js` (source detection, extraction patterns,
  `cleanExtractedValue`, `extractByRules`, `mergeExtractedData`),
* `src/app/api/email-sync/route.ts` (the POST / PATCH / GET handlers,
  duplicate detection and the confidence gate),
* `src/lib/email/classifier.ts` (`classifyEmail` and its error default),
* `scripts/jobsync-local-sync.js` (the local producer loop,
  `classifyWithOllama`, `parseEmailFile`),
* `scripts/jobsync-scan-corrections.js` (correction routing,
  `deleteFromServer`).

JavaScript strings are modelled as Lean `String`s (operating on `List Char`),
JavaScript numbers that carry confidences as exact rationals `ℚ` (the only
comparisons performed are against the decimal literals 0.6 / 0.59 / 0.95 / 1.0,
on which IEEE doubles and exact rationals agree), `null`/`undefined` as
`Option`, and JavaScript regular expressions by an executable backtracking
matcher over an explicit regex syntax tree, with the source's patterns
transcribed term by term.
-/

namespace JobDash

/-! ### JavaScript string primitives -/

/-- ASCII lower-casing of a character, as used on the email header fields. -/
def jsLowerChar (c : Char) : Char := c.toLower

/-- `s.toLowerCase()` on the character list of a string. -/
def jsToLower (s : List Char) : List Char := s.map jsLowerChar

/-- `s.toLowerCase()` on strings. -/
def strLower (s : String) : String := String.mk (jsToLower s.data)

/-- The character class matched by the JavaScript `\s` escape
(ASCII whitespace plus no-break space). -/
def jsIsSpace (c : Char) : Bool :=
  c = ' ' || c = '\t' || c = '\n' || c = '\r' ||
  c = Char.ofNat 11 || c = Char.ofNat 12 || c = Char.ofNat 160

/-- The character class matched by the JavaScript `\d` escape. -/
def jsIsDigit (c : Char) : Bool := '0' ≤ c && c ≤ '9'

/-- The character class matched by the JavaScript `\w` escape. -/
def jsIsWord (c : Char) : Bool :=
  ('a' ≤ c && c ≤ 'z') || ('A' ≤ c && c ≤ 'Z') || jsIsDigit c || c = '_'

/-- Does `s` start with `pat`? -/
def listStarts : List Char → List Char → Bool
  | _, [] => true
  | [], _ :: _ => false
  | c :: s, d :: p => c == d && listStarts s p

/-- `s.includes(pat)` on character lists. -/
def jsIncludesL : List Char → List Char → Bool
  | [], pat => listStarts [] pat
  | s@(_ :: rest), pat => listStarts s pat || jsIncludesL rest pat

/-- `s.includes(pat)` on strings. -/
def jsIncludes (s pat : String) : Bool := jsIncludesL s.data pat.data

/-- `s.substring(0, n)` on strings. -/
def jsTake (s : String) (n : Nat) : String := String.mk (s.data.take n)

/-- `s?.substring(0, n) || ""` for a nullable string. -/
def jsTakeOpt (s : Option String) (n : Nat) : String :=
  match s with
  | none => ""
  | some s => jsTake s n

/-- `s.trim()` (strip JavaScript whitespace from both ends). -/
def jsTrim (s : List Char) : List Char :=
  ((s.dropWhile jsIsSpace).reverse.dropWhile jsIsSpace).reverse

/-- JavaScript truthiness of a nullable string: `null`, `undefined` and the
empty string are falsy. -/
def jsTruthy : Option String → Bool
  | none => false
  | some s => !s.isEmpty

/-- The apostrophe character, U+0027. -/
def apos : Char := Char.ofNat 39

/-! ### An executable backtracking regex matcher

The JavaScript regular expressions used by the repository are transcribed into
the following syntax tree.  A single capturing group (`grp`) is tracked: every
pattern whose capture the source consumes uses exactly its group 1.  The
matcher enumerates match results in JavaScript preference order (alternatives
left to right, greedy quantifiers longest first, lazy quantifiers shortest
first), so the head of the result list is the match JavaScript would return.
-/

/-- One item of a character class `[...]`. -/
inductive ClsItem where
  | ch (c : Char)
  | rng (lo hi : Char)
  | spc
  | digit
  | word

/-- Regex syntax tree. -/
inductive RE where
  | eps
  | lit (c : Char)
  | anyc
  | cls (neg : Bool) (items : List ClsItem)
  | seq (a b : RE)
  | alt (a b : RE)
  | star (lzy : Bool) (r : RE)
  | plus (lzy : Bool) (r : RE)
  | opt (lzy : Bool) (r : RE)
  | grp (r : RE)
  | nla (r : RE)
  | bol
  | eol

/-- A pattern together with its `i` (ignore-case) and `m` (multiline) flags. -/
structure Pat where
  re : RE
  ci : Bool
  ml : Bool

/-- Case-insensitive (when `ci`) character comparison. -/
def charEqCI (ci : Bool) (a b : Char) : Bool :=
  if ci then a.toLower == b.toLower else a == b

/-- Does a class item accept character `c`? -/
def clsItemMatches (ci : Bool) (it : ClsItem) (c : Char) : Bool :=
  match it with
  | .ch d => charEqCI ci c d
  | .rng lo hi => lo ≤ c && c ≤ hi
  | .spc => jsIsSpace c
  | .digit => jsIsDigit c
  | .word => jsIsWord c

/-- Does a character class (possibly negated) accept `c`? -/
def clsMatches (ci : Bool) (neg : Bool) (items : List ClsItem) (c : Char) : Bool :=
  let m := items.any (fun it => clsItemMatches ci it c)
  if neg then !m else m

/-- All ways of matching `re` at position `i` of `s`, as pairs of an end
position and the recorded capture span, in JavaScript preference order.
`fuel` bounds the recursion; it is always called with enough fuel for the
pattern and subject at hand. -/
def mrun (ci ml : Bool) (s : List Char) :
    Nat → RE → Nat → Option (Nat × Nat) → List (Nat × Option (Nat × Nat))
  | 0, _, _, _ => []
  | fuel + 1, re, i, cap =>
    match re with
    | .eps => [(i, cap)]
    | .lit c =>
      match s.get? i with
      | some d => if charEqCI ci d c then [(i + 1, cap)] else []
      | none => []
    | .anyc =>
      match s.get? i with
      | some d => if d ≠ '\n' then [(i + 1, cap)] else []
      | none => []
    | .cls neg items =>
      match s.get? i with
      | some d => if clsMatches ci neg items d then [(i + 1, cap)] else []
      | none => []
    | .seq a b =>
      (mrun ci ml s fuel a i cap).flatMap (fun pc => mrun ci ml s fuel b pc.1 pc.2)
    | .alt a b => mrun ci ml s fuel a i cap ++ mrun ci ml s fuel b i cap
    | .star lzy r =>
      let deeper := (mrun ci ml s fuel r i cap).flatMap (fun pc =>
        if pc.1 = i then [] else mrun ci ml s fuel (.star lzy r) pc.1 pc.2)
      if lzy then (i, cap) :: deeper else deeper ++ [(i, cap)]
    | .plus lzy r => mrun ci ml s fuel (.seq r (.star lzy r)) i cap
    | .opt lzy r =>
      let one := mrun ci ml s fuel r i cap
      if lzy then (i, cap) :: one else one ++ [(i, cap)]
    | .grp r => (mrun ci ml s fuel r i cap).map (fun pc => (pc.1, some (i, pc.1)))
    | .nla r => if (mrun ci ml s fuel r i cap).isEmpty then [(i, cap)] else []
    | .bol =>
      if i = 0 || (ml && s.get? (i - 1) == some '\n') then [(i, cap)] else []
    | .eol =>
      if i = s.length || (ml && s.get? i == some '\n') then [(i, cap)] else []

/-- Fuel that is ample for every pattern/subject pair in this development. -/
def matchFuel (s : List Char) : Nat := 8 * s.length + 2000

/-- Scan start positions left to right, returning the first position at which
the pattern matches, with the end position and capture of the preferred
match. -/
def mfindAux (p : Pat) (s : List Char) : Nat → Nat → Option (Nat × Nat × Option (Nat × Nat))
  | _, 0 => none
  | i, rem + 1 =>
    match mrun p.ci p.ml s (matchFuel s) p.re i none with
    | [] => mfindAux p s (i + 1) rem
    | pc :: _ => some (i, pc.1, pc.2)

/-- Leftmost match of a pattern in a string. -/
def mfind (p : Pat) (s : List Char) : Option (Nat × Nat × Option (Nat × Nat)) :=
  mfindAux p s 0 (s.length + 1)

/-- `pattern.test(s)`. -/
def rtest (p : Pat) (s : String) : Bool := (mfind p s.data).isSome

/-- `s.match(pattern)?.[1]`: the text of capturing group 1 of the first match,
if the match succeeded and the group participated. -/
def rmatch1 (p : Pat) (s : String) : Option String :=
  match mfind p s.data with
  | none => none
  | some (_, _, none) => none
  | some (_, _, some (a, b)) => some (String.mk ((s.data.drop a).take (b - a)))

/-- The JavaScript idiom `const m = s.match(p); if (m && m[1]) ...`:
group 1 of the first match when it is truthy. -/
def rmatch1Truthy (p : Pat) (s : String) : Option String :=
  match rmatch1 p s with
  | none => none
  | some v => if v.isEmpty then none else some v

/-- `s.replace(pattern, repl)` for a non-global pattern: splice the
replacement over the leftmost match. -/
def replaceFirst (p : Pat) (s : List Char) (repl : List Char) : List Char :=
  match mfind p s with
  | none => s
  | some (i, j, _) => s.take i ++ repl ++ s.drop j

/-! Pattern-building helpers. -/

/-- Sequence a list of regexes. -/
def rseq (l : List RE) : RE := l.foldr RE.seq RE.eps

/-- Ordered alternation of a list of regexes. -/
def ralts : List RE → RE
  | [] => RE.eps
  | [r] => r
  | r :: rs => RE.alt r (ralts rs)

/-- A literal string as a regex. -/
def rstr (s : String) : RE := rseq (s.data.map RE.lit)

/-- Ordered alternation of literal strings. -/
def raltStrs (l : List String) : RE := ralts (l.map rstr)

/-- `(.+?)`: the single tracked capturing group over a lazy dot-plus. -/
def capLazyDot : RE := RE.grp (RE.plus true RE.anyc)

/-- `.*` (greedy). -/
def rdotStar : RE := RE.star false RE.anyc

/-- `\s` as a class. -/
def rsp : RE := RE.cls false [.spc]

/-- `\s*` (greedy). -/
def rspStar : RE := RE.star false rsp

/-- `\s+` (greedy). -/
def rspPlus : RE := RE.plus false rsp

/-- An optional (greedy) regex `r?`. -/
def ropt (r : RE) : RE := RE.opt false r

/-- A pattern with the `i` flag only. -/
def pi (r : RE) : Pat := ⟨r, true, false⟩

/-- A pattern with the `i` and `m` flags. -/
def pim (r : RE) : Pat := ⟨r, true, true⟩

/-- A pattern with no flags. -/
def pn (r : RE) : Pat := ⟨r, false, false⟩

/-! ### Exact rational constants

The JavaScript decimal literals that carry confidences are represented by
explicitly normalized rationals, so that the gate comparisons evaluate inside
the kernel; the lemmas following each constant identify it with the
corresponding decimal literal. -/

/-- The rule confidence `0.95`. -/
def conf095 : ℚ := ⟨19, 20, by norm_num, by norm_num⟩

/-- The confidence threshold `0.6`. -/
def threshold06 : ℚ := ⟨3, 5, by norm_num, by norm_num⟩

/-- The below-threshold confidence `0.59` used by the boundary checks. -/
def conf059 : ℚ := ⟨59, 100, by norm_num, by norm_num⟩

/-- The full confidence `1.0` given to user-corrected promotions. -/
def conf100 : ℚ := ⟨1, 1, by norm_num, by norm_num⟩

/-- The half confidence `0.5` defaulted by `classifyWithOllama` when the
model omits one. -/
def conf05 : ℚ := ⟨1, 2, by norm_num, by norm_num⟩

/-- The zero confidence of the server classifier error default. -/
def conf00 : ℚ := ⟨0, 1, by norm_num, by norm_num⟩

/-! ### Data model: normalized messages

`EmailMsg` is the normalized message record produced by the parse step of the
local scripts (`parseEmailFile` / `parseEmailForCorrection`): `fromName` and
`textBody` can be absent (`undefined` in the source). -/

structure EmailMsg where
  messageId : String
  fromAddr : String
  fromName : Option String
  toAddr : String
  subject : String
  date : String
  textBody : Option String
  htmlBody : Option String
  isOutbound : Bool

/-- `email.fromName || ""`. -/
def fromNameOr (e : EmailMsg) : String :=
  match e.fromName with
  | none => ""
  | some n => n

/-- `email.textBody || ""`. -/
def textBodyOr (e : EmailMsg) : String :=
  match e.textBody with
  | none => ""
  | some t => t

/-- `email.textBody?.substring(0, 500) || ""`, the body prefix several rule
side-conditions inspect. -/
def body500 (e : EmailMsg) : String := jsTakeOpt e.textBody 500

/-! ### The rule engine (`scripts/lib/classification-rules.js`)

`CLASSIFICATION_TYPES`, the rule tables and `classifyByRules` are transcribed
from the source.  Classification labels are the source's strings. -/

def CLASSIFICATION_TYPES : List String :=
  ["job_application", "job_response", "interview", "rejection",
   "offer", "follow_up", "other"]

/-- The field of the message a rule's pattern is tested against. -/
inductive RField where
  | fromF
  | subjectF
  | senderNameF
  | textBodyF

/-- One classification rule: a field, a pattern, an optional side condition
over the whole message, and a reason tag. -/
structure CRule where
  fld : RField
  pat : Pat
  cond : Option (EmailMsg → Bool)
  reason : String

/-- The `fields` object built at the top of `classifyByRules`: `from`,
`subject` and `senderName` lower-cased, `textBody` raw. -/
def ruleFieldValue (e : EmailMsg) : RField → String
  | .fromF => strLower e.fromAddr
  | .subjectF => strLower e.subject
  | .senderNameF => strLower (fromNameOr e)
  | .textBodyF => textBodyOr e

/-- A rule applies when its pattern matches the field value and its side
condition (if any) holds; in the source a pattern match whose condition fails
just `continue`s to the next rule. -/
def matchesCRule (e : EmailMsg) (r : CRule) : Bool :=
  rtest r.pat (ruleFieldValue e r.fld) &&
    (match r.cond with
     | none => true
     | some c => c e)

/-- Shorthand for a rule without a side condition. -/
def rule (fld : RField) (pat : Pat) (reason : String) : CRule :=
  ⟨fld, pat, none, reason⟩

/-- Shorthand for a rule with a side condition. -/
def ruleC (fld : RField) (pat : Pat) (cond : EmailMsg → Bool) (reason : String) : CRule :=
  ⟨fld, pat, some cond, reason⟩

/-- The mojibake dove-emoji prefix of one recruitment-spam rule, transcribed
character for character. -/
def emojiRE : RE :=
  rseq ([0xF0, 0x178, 0x2022, 0x160, 0xEF, 0xB8].map (fun n => RE.lit (Char.ofNat n)))

/-- `CLASSIFICATION_RULES.other`. -/
def rulesOther : List CRule :=
  [ rule .fromF (pi (rstr "jobnotification@")) "job-alert-sender",
    rule .fromF (pi (rstr "jobs2web.com")) "job-alert-sender",
    rule .fromF (pi (rstr "job-alerts@linkedin.com")) "linkedin-job-alert",
    rule .subjectF (pi (rseq [RE.bol, ropt (rstr "your "),
      ralts [rstr "job alert",
             rseq [rstr "new job", ropt (RE.lit 's'), rstr " posted"]]]))
      "job-alert-subject",
    rule .subjectF (pi (rseq [rstr "job", ropt (RE.lit 's'), RE.lit ' ',
      raltStrs ["from", "at", "posted"]])) "job-alert-subject",
    rule .senderNameF (pi (rseq [rstr "job alert", ropt (RE.lit 's')]))
      "job-alert-sender-name",
    rule .subjectF (pi (rstr "top jobs from")) "job-alert-subject",
    rule .fromF (pi (ralts [rseq [rstr "seek", rdotStar, rstr "grad"],
      rstr "gradconnection"])) "job-alert",
    ruleC .fromF (pi (rseq [rstr "@linkedin.com", RE.eol]))
      (fun e => rtest (pi (rseq [rstr "job alert", ropt (RE.lit 's')])) (fromNameOr e))
      "linkedin-alert",
    rule .fromF (pi (rseq [rstr "@github.com", RE.eol])) "github",
    rule .fromF (pi (rstr "noreply@github.com")) "github",
    rule .subjectF (pi (rseq [RE.lit '[', rdotStar, RE.lit '/', rdotStar,
      RE.lit ']', RE.lit ' ',
      raltStrs ["pull request", "issue", "push", "comment"]])) "github-notification",
    rule .fromF (pi (rstr "noreply-dmarc-support@google.com")) "dmarc",
    rule .subjectF (pi (rseq [RE.bol,
      ralts [rstr "security alert", rseq [rstr "dmarc", rdotStar, rstr "report"]]]))
      "security-alert",
    rule .subjectF (pi (rseq [rstr "report domain:", rdotStar, rstr "submitter:"]))
      "dmarc",
    rule .fromF (pi (ralts [rseq [rstr "dmarc", rdotStar, rstr "report"],
      rstr "dmarc-support"])) "dmarc",
    rule .fromF (pi (rseq [rstr "@amazon.", raltStrs ["com", "co", "com.au"]]))
      "ecommerce",
    rule .fromF (pi (rstr "@costco")) "retail",
    rule .fromF (pi (rstr "@garmin.")) "service",
    rule .fromF (pi (rstr "@vultr.")) "hosting",
    rule .fromF (pi (rstr "@kickstarter.")) "crowdfunding",
    rule .fromF (pi (rstr "@ebay.")) "ecommerce",
    rule .fromF (pi (rstr "@paypal.")) "payments",
    rule .fromF (pi (rstr "@netflix.")) "streaming",
    rule .fromF (pi (rstr "@spotify.")) "streaming",
    rule .fromF (pi (raltStrs ["mailchimp", "mcsv.net"])) "marketing",
    rule .fromF (pi (rstr "@sendgrid.")) "marketing",
    rule .subjectF (pi (rseq [RE.bol,
      ralts [rseq [rstr "don", RE.lit apos, rstr "t miss"],
             rstr "final hours", rstr "last chance"]])) "marketing",
    rule .subjectF (pi (raltStrs ["unsubscribe", "newsletter"])) "marketing",
    ruleC .fromF (pi (ralts [rstr "huggingface",
      rseq [rstr "hugging", rdotStar, rstr "face"]]))
      (fun e => !(rtest (pi (raltStrs ["job", "career", "apply"])) e.subject))
      "tech-newsletter",
    ruleC .fromF (pi (rseq [rstr "@slack.com", RE.eol]))
      (fun e => !(rtest (pi (ralts [rstr "onboard",
        rseq [rstr "welcome", rdotStar, rstr "team"]])) e.subject))
      "slack-general",
    ruleC .fromF (pi (rseq [rstr "@microsoft.com", RE.eol]))
      (fun e => rtest (pi (raltStrs ["learning goals", "microsoft learn"])) e.subject)
      "newsletter",
    ruleC .fromF (pi (rseq [rstr "ibm", rdotStar, rstr "avature"]))
      (fun e => rtest (pi (ralts [rstr "tips", rstr "webinar", rstr "event",
        rseq [rstr "join", rdotStar, rstr "day"]])) e.subject)
      "ibm-marketing",
    rule .fromF (pi (ralts [rseq [rstr "workforce", rdotStar, rstr "australia"],
      rstr "dewr.gov"])) "govt-reporting",
    rule .subjectF (pi (rseq [RE.bol, ropt (raltStrs ["fwd:", "re:"]), rspStar,
      ralts [rstr "yo", rstr "hey", rstr "sup", rstr "running late",
             rstr "pdf", rseq [rstr ".pdf", RE.eol]]])) "personal",
    rule .subjectF (pi (rseq [RE.bol, ropt (raltStrs ["fwd:", "re:"]), rspStar,
      RE.plus false (RE.cls false [.word]), rspPlus,
      raltStrs ["video", "song", "music", "watch this"]])) "personal-share",
    rule .fromF (pi (ralts [rstr "vet", rstr "veterinary", rstr "petbarn",
      rseq [rstr "pet", rdotStar, rstr "hospital"]])) "pet-services",
    ruleC .fromF (pi (ralts [rseq [rstr "outlier", rdotStar, rstr "ai"],
      rstr "@privateemail.com"]))
      (fun e => rtest (pi (ralts [rstr "action required", rstr "invitation",
        rseq [rstr "matches", rdotStar, rstr "job"]])) e.subject)
      "recruitment-spam",
    rule .subjectF (pi (rseq [emojiRE, rdotStar, rstr "action required",
      rdotStar, rstr "invitation"])) "recruitment-spam",
    ruleC .subjectF (pi (ralts [rstr "webinar",
      rseq [rstr "event", rdotStar, rstr "registration"],
      rseq [rstr "join", rdotStar, rstr "session"]]))
      (fun e => !(rtest (pi (raltStrs ["interview", "screen", "assessment"]))
        e.subject))
      "event-invite",
    rule .subjectF (pi (ralts [rstr "go beyond human limits",
      rseq [rstr "day", ropt (RE.lit 's'), rstr " to go:"]])) "event-promo" ]

/-- `CLASSIFICATION_RULES.job_response`. -/
def rulesJobResponse : List CRule :=
  [ rule .subjectF (pi (rseq [rstr "thank",
      ralts [rstr "s", rseq [ropt (RE.lit ' '), rstr "you"], rstr "you"],
      rstr " for ", ropt (rstr "your "),
      raltStrs ["apply", "application", "interest"]])) "thank-you-applying",
    rule .subjectF (pi (rseq [rstr "we",
      ralts [rseq [RE.lit apos, rstr "ve"], rstr " have"],
      rstr " received your application"])) "received-application",
    rule .subjectF (pi (rseq [rstr "application ",
      raltStrs ["received", "submitted", "complete", "acknowledged"]]))
      "application-received",
    rule .subjectF (pi (rseq [rstr "your application ",
      raltStrs ["for", "to", "at", "with"]])) "your-application",
    rule .subjectF (pi (rstr "thanks for applying")) "thanks-applying",
    rule .subjectF (pi (rstr "thank you for your interest in")) "thank-interest",
    ruleC .fromF (pi (rseq [RE.lit '@', rdotStar, rstr "workday"]))
      (fun e => rtest (pi (raltStrs ["thank", "received", "application"])) e.subject)
      "workday-confirmation",
    ruleC .fromF (pi (raltStrs ["recruitment@", "careers@", "talent@", "hiring@"]))
      (fun e => rtest (pi (raltStrs ["thank", "received", "confirm"])) e.subject)
      "recruitment-confirmation",
    ruleC .fromF (pi (raltStrs ["greenhouse", "lever", "icims", "jobvite",
      "smartrecruiters"]))
      (fun e => rtest (pi (raltStrs ["thank", "received", "apply"])) e.subject)
      "ats-confirmation",
    rule .subjectF (pi (rseq [rstr "we got it", rdotStar, rstr "in the mix"]))
      "canva-confirmation",
    rule .subjectF (pi (rstr "application viewed")) "application-viewed",
    rule .subjectF (pi (rseq [rstr "verify your candidate ",
      raltStrs ["account", "profile"]])) "account-verify",
    rule .subjectF (pi (ralts [rstr "good move",
      rseq [rstr "you", ralts [rseq [RE.lit apos, rstr "re"], rstr " are"],
            rstr " in the mix"]])) "confirmation-positive",
    rule .subjectF (pi (rseq [rstr "your", rdotStar, rstr "journey begins"]))
      "journey-begins",
    rule .subjectF (pi (rstr "job application acknowledgment")) "acknowledgment",
    ruleC .subjectF (pi (rstr "registration confirmation"))
      (fun e => rtest (pi (raltStrs ["recruit", "career", "talent"])) e.fromAddr)
      "recruitment-registration",
    rule .subjectF (pi (rseq [rstr "welcome to", rdotStar, rstr "careers"]))
      "careers-welcome",
    ruleC .fromF (pi (rstr "springboard.com.au"))
      (fun e => rtest (pi (raltStrs ["application", "reference"])) e.subject)
      "springboard-confirmation",
    rule .subjectF (pi (rstr "received your job application")) "received-job-app" ]

/-- `CLASSIFICATION_RULES.interview`. -/
def rulesInterview : List CRule :=
  [ rule .subjectF (pi (rseq [rstr "interview ",
      raltStrs ["invite", "invitation", "confirm", "schedule"]])) "interview-invite",
    rule .subjectF (pi (rstr "phone screen")) "phone-screen",
    rule .subjectF (pi (rseq [rstr "you",
      ralts [rseq [RE.lit apos, rstr "re"], rstr " are"],
      rstr " invited", rdotStar,
      raltStrs ["interview", "screen", "call", "assessment"]])) "invited-interview",
    rule .subjectF (pi (rseq [rstr "schedule", rdotStar,
      raltStrs ["interview", "call", "meeting"]])) "schedule-interview",
    rule .subjectF (pi (rseq [rstr "invitation:", rdotStar, rstr "interview"]))
      "calendar-interview",
    rule .subjectF (pi (rseq [raltStrs ["technical", "coding"], RE.lit ' ',
      raltStrs ["assessment", "challenge", "test"]])) "assessment",
    rule .subjectF (pi (rseq [rstr "skills", rdotStar, rstr "assessment"]))
      "skills-assessment",
    rule .subjectF (pi (rstr "role alignment discussion")) "alignment-call",
    rule .subjectF (pi (rstr "talent introduction session")) "intro-session",
    rule .subjectF (pi (rseq [rstr "in-person", rdotStar,
      raltStrs ["assessment", "interview", "meeting"]])) "in-person-interview",
    rule .subjectF (pi (rseq [rstr "online", rdotStar,
      raltStrs ["assessment", "interview", "discussion"]])) "online-interview",
    rule .subjectF (pi (rseq [rstr "video ",
      raltStrs ["interview", "call", "screen"]])) "video-interview",
    rule .subjectF (pi (ralts [rseq [rstr "next", rdotStar, rstr "round"],
      rseq [rstr "round", rdotStar, rstr "interview"]])) "next-round",
    ruleC .subjectF (pi (ralts [rseq [rstr "meet", rdotStar, rstr "team"],
      rseq [rstr "team", rdotStar, rstr "meet"]]))
      (fun e => rtest (pi (raltStrs ["interview", "hire", "recruit"])) e.fromAddr)
      "team-meet",
    ruleC .subjectF (pi (rseq [RE.bol, rstr "invitation:"]))
      (fun e => rtest (pi (raltStrs ["interview", "screen", "assessment", "call"]))
        e.subject)
      "calendar-invite" ]

/-- `CLASSIFICATION_RULES.rejection`. -/
def rulesRejection : List CRule :=
  [ ruleC .subjectF (pi (rstr "application outcome"))
      (fun e => !(rtest (pi (raltStrs ["thank", "received"])) e.subject))
      "outcome-likely-rejection",
    rule .subjectF (pi (rstr "outcome of your application")) "outcome",
    rule .subjectF (pi (rseq [rstr "unsuccessful", rdotStar, rstr "application"]))
      "unsuccessful",
    ruleC .subjectF (pi (rseq [rstr "update", rdotStar, rstr "application"]))
      (fun e => rtest (pi (ralts [rstr "regret", rstr "unfortunately",
        rstr "unable", rstr "ineligible",
        rseq [rstr "not", rdotStar, rstr "proceed"],
        rseq [rstr "not", rdotStar, rstr "successful"]])) (body500 e))
      "rejection-update",
    rule .subjectF (pi (rseq [rstr "we",
      ralts [rseq [RE.lit apos, rstr "ve"], rstr " have"],
      rstr " reviewed your application"])) "reviewed-likely-rejection",
    rule .subjectF (pi (rseq [rstr "not ", ropt (rstr "be "),
      raltStrs ["moving", "proceed", "progress"], rstr "ing forward"]))
      "not-proceeding",
    rule .subjectF (pi (rstr "regret to inform")) "regret",
    ruleC .subjectF (pi (ralts [rstr "role update",
      rseq [rstr "position", rdotStar, rstr "update"]]))
      (fun e => !(rtest (pi (raltStrs ["interview", "schedule"])) e.subject))
      "role-update-rejection",
    ruleC .subjectF (pi (ralts [rseq [rstr "application", rdotStar, rstr "status"],
      rseq [rstr "status", rdotStar, rstr "application"]]))
      (fun e => rtest (pi (ralts [rstr "close", rstr "filled",
        rseq [rstr "not", rdotStar, rstr "selected"]])) (body500 e))
      "status-rejection",
    ruleC .subjectF (pi (rseq [rstr "thank you for", rdotStar, rstr "interest"]))
      (fun e => rtest (pi (ralts [rstr "unfortunately", rstr "regret",
        rstr "unable", rstr "ineligible",
        rseq [rstr "not", rdotStar, rstr "time"],
        rstr "other candidates"])) (body500 e))
      "polite-rejection" ]

/-- `CLASSIFICATION_RULES.follow_up`. -/
def rulesFollowUp : List CRule :=
  [ rule .subjectF (pi (rseq [rstr "reminder:", rdotStar, rstr "application"]))
      "application-reminder",
    ruleC .subjectF (pi (rstr "next steps"))
      (fun e => !(rtest (pi (raltStrs ["thank", "received"])) e.subject))
      "next-steps",
    rule .subjectF (pi (rstr "finish your application")) "finish-application",
    rule .subjectF (pi (rseq [rstr "complete your ",
      raltStrs ["application", "profile", "assessment"]])) "complete-application",
    rule .subjectF (pi (rstr "waiting for your")) "waiting",
    ruleC .fromF (pi (raltStrs ["codesignal", "hackerrank", "codility"]))
      (fun e => rtest (pi (raltStrs ["reminder", "waiting", "complete"])) e.subject)
      "assessment-reminder",
    rule .subjectF (pi (rseq [rstr "assessment ",
      raltStrs ["completed", "submitted"]])) "assessment-completed",
    rule .subjectF (pi (ralts [rseq [rstr "recruiters", rdotStar, rstr "looking"],
      rseq [rstr "profile", rdotStar, rstr "view"]])) "profile-activity",
    rule .subjectF (pi (rseq [rstr "what",
      ralts [rseq [RE.lit apos, rstr "s"], rstr " is"], rstr " next"]))
      "whats-next",
    rule .subjectF (pi (rseq [rstr "you",
      ralts [rseq [RE.lit apos, rstr "ve"], rstr " have"],
      rstr " applied", rdotStar, rstr "what next"])) "applied-next",
    rule .subjectF (pi (rseq [rstr "keep receiving", rdotStar, rstr "email"]))
      "email-preferences",
    rule .subjectF (pi (rseq [rstr "update on", rdotStar, rstr "recruitment"]))
      "recruitment-update",
    ruleC .subjectF (pi (ralts [rseq [rstr "take", rdotStar, rstr "step"],
      rseq [rstr "final", rdotStar, rstr "step"]]))
      (fun e => !(rtest (pi (rstr "interview")) e.subject))
      "take-step",
    ruleC .fromF (pi (rstr "testgorilla"))
      (fun e => rtest (pi (raltStrs ["submitted", "next", "result"])) e.subject)
      "testgorilla-followup" ]

/-- The rule table, grouped by target label. -/
def CLASSIFICATION_RULES (ty : String) : List CRule :=
  if ty = "other" then rulesOther
  else if ty = "job_response" then rulesJobResponse
  else if ty = "interview" then rulesInterview
  else if ty = "rejection" then rulesRejection
  else if ty = "follow_up" then rulesFollowUp
  else []

/-- The fixed label priority list of `classifyByRules`. -/
def checkOrder : List String :=
  ["other", "interview", "rejection", "job_response", "follow_up"]

/-- The result record returned by `classifyByRules` on a match. -/
structure RuleResult where
  type : String
  confidence : ℚ
  reason : String
  ruleMatched : Bool
deriving DecidableEq

/-- The result built for the first applicable rule of a label: the fixed
confidence 0.95 and the rule's reason tag. -/
def mkRuleResult (ty : String) (r : CRule) : RuleResult :=
  ⟨ty, conf095, r.reason, true⟩

/-- `classifyByRules`: walk the labels in priority order, and within a label
the rules in declared order; the first applicable rule yields the result,
otherwise `null`. -/
def classifyByRules (e : EmailMsg) : Option RuleResult :=
  checkOrder.findSome? (fun ty =>
    ((CLASSIFICATION_RULES ty).find? (matchesCRule e)).map (mkRuleResult ty))

/-- `isHighVarianceCorrection`: a correction is high variance exactly when the
rule engine has no opinion on the message (the type arguments are unused in
the source as well). -/
def isHighVarianceCorrection (e : EmailMsg) (originalType correctedType : String) :
    Bool :=
  match classifyByRules e with
  | some _ => false
  | none => true

/-- Does any rule of a list apply to the message? -/
def anyRuleMatches (e : EmailMsg) (rules : List CRule) : Bool :=
  rules.any (matchesCRule e)

/-! ### The extraction engine (`scripts/lib/extraction-rules.js`) -/

/-- `AUSTRALIAN_CITIES`, in declared order. -/
def AUSTRALIAN_CITIES : List String :=
  ["Sydney", "Melbourne", "Brisbane", "Perth", "Adelaide", "Canberra",
   "Gold Coast", "Newcastle", "Hobart", "Darwin", "Wollongong", "Geelong",
   "Townsville", "Cairns", "Toowoomba", "Ballarat", "Bendigo", "Albury",
   "Launceston", "Mackay", "Rockhampton", "Bunbury", "Bundaberg",
   "Parramatta", "North Sydney", "Chatswood", "Macquarie Park", "Olympic Park",
   "CBD", "Inner West", "Eastern Suburbs", "Northern Beaches",
   "South Melbourne", "Richmond", "Docklands", "St Kilda", "Fitzroy",
   "Fortitude Valley", "South Bank", "West End"]

/-- `AUSTRALIAN_STATES`, in declared order. -/
def AUSTRALIAN_STATES : List String :=
  ["NSW", "VIC", "QLD", "WA", "SA", "TAS", "ACT", "NT",
   "New South Wales", "Victoria", "Queensland", "Western Australia",
   "South Australia", "Tasmania", "Australian Capital Territory",
   "Northern Territory"]

/-- `JOB_TYPES`: job type to keyword list, in declared order. -/
def JOB_TYPES : List (String × List String) :=
  [("full-time", ["full-time", "full time", "fulltime", "ft", "permanent full"]),
   ("part-time", ["part-time", "part time", "parttime", "pt"]),
   ("contract", ["contract", "contractor", "fixed term", "fixed-term"]),
   ("casual", ["casual"]),
   ("temporary", ["temporary", "temp"]),
   ("internship", ["internship", "intern"]),
   ("graduate", ["graduate", "grad program", "graduate program", "new grad"]),
   ("apprenticeship", ["apprenticeship", "apprentice", "traineeship", "trainee"])]

/-- `JOB_SOURCES`: job board to domain fragments, in declared order. -/
def JOB_SOURCES : List (String × List String) :=
  [("SEEK", ["seek.com.au", "seek.com", "@seek"]),
   ("LinkedIn", ["linkedin.com", "@linkedin"]),
   ("Indeed", ["indeed.com", "@indeed", "indeedassessments"]),
   ("Greenhouse", ["greenhouse.io", "@greenhouse"]),
   ("Workday", ["workday.com", "myworkday.com", "@myworkday"]),
   ("Lever", ["lever.co", "@lever"]),
   ("SmartRecruiters", ["smartrecruiters.com", "@smartrecruiters"]),
   ("iCIMS", ["icims.com", "@icims"]),
   ("Jobvite", ["jobvite.com", "@jobvite"]),
   ("Taleo", ["taleo.net", "@taleo"]),
   ("Jora", ["jora.com", "@jora"]),
   ("CareerOne", ["careerone.com.au", "@careerone"]),
   ("GradConnection", ["gradconnection.com", "@gradconnection"]),
   ("Prosple", ["prosple.com", "@prosple"]),
   ("APSJobs", ["apsjobs.gov.au", "@apsjobs"]),
   ("Hatch", ["hatch.team", "@hatch"])]

/-- `(?:\.|$)` with the `m` flag. -/
def dotOrEnd : RE := ralts [RE.lit '.', RE.eol]

/-- `(?:\.|!|$)` with the `m` flag. -/
def dotBangOrEnd : RE := ralts [RE.lit '.', RE.lit '!', RE.eol]

/-- `(?:\n|$)`. -/
def nlOrEnd : RE := ralts [RE.lit '\n', RE.eol]

/-- `.+?` without a capture. -/
def lazyDot : RE := RE.plus true RE.anyc

/-- The source-specific pattern lists of `SOURCE_PATTERNS`, keyed by the
lower-cased source name. -/
structure SourcePats where
  company : List Pat
  jobTitle : List Pat

/-- `SOURCE_PATTERNS.seek`. -/
def seekPats : SourcePats :=
  ⟨[pim (rseq [rstr "application for ", lazyDot, rstr " was ",
      ropt (rstr "successfully "), rstr "submitted to ", capLazyDot, dotOrEnd]),
    pim (rseq [rstr "applied ", raltStrs ["for", "to"], RE.lit ' ', lazyDot,
      rstr " at ", capLazyDot, dotOrEnd])],
   [pim (rseq [rstr "application for ", capLazyDot, rstr " was ",
      ropt (rstr "successfully "), rstr "submitted"]),
    pim (rseq [rstr "applied ", raltStrs ["for", "to"], RE.lit ' ', capLazyDot,
      rstr " at"])]⟩

/-- `SOURCE_PATTERNS.linkedin`. -/
def linkedinPats : SourcePats :=
  ⟨[pim (rseq [rstr "application ", ropt (rstr "was "), rstr "sent to ",
      capLazyDot, dotOrEnd]),
    pim (rseq [rstr "applied to ", capLazyDot, rstr " on LinkedIn"]),
    pim (rseq [capLazyDot, rstr " is reviewing your application"]),
    pim (rseq [capLazyDot, rstr " viewed your application"]),
    pim (rseq [rstr "application to ", capLazyDot, dotOrEnd])],
   [pim (rseq [rstr "application for ", capLazyDot, RE.lit ' ',
      ropt (rstr "was "), rstr "sent"]),
    pim (rseq [rstr "applied for ", capLazyDot, rstr " at"]),
    pim (rseq [capLazyDot, rstr " role at"]),
    pim (rseq [rstr "position", ropt (RE.lit ':'), rspStar, capLazyDot, nlOrEnd])]⟩

/-- `SOURCE_PATTERNS.indeed`. -/
def indeedPats : SourcePats :=
  ⟨[pim (rseq [rstr "application to ", capLazyDot, dotOrEnd]),
    pim (rseq [rstr "applied to ", capLazyDot, rstr " for"]),
    pim (rseq [capLazyDot, rstr " has received your application"])],
   [pim (rseq [rstr "applied to ", lazyDot, rstr " for ", capLazyDot, dotOrEnd]),
    pim (rseq [rstr "application for ", capLazyDot, rstr " at"])]⟩

/-- `SOURCE_PATTERNS.greenhouse`. -/
def greenhousePats : SourcePats :=
  ⟨[pim (rseq [rstr "thank", ralts [rstr "s", rstr " you"],
      rstr " for applying to ", capLazyDot, dotBangOrEnd]),
    pim (rseq [rstr "application ", raltStrs ["for", "to", "at"], RE.lit ' ',
      ropt (rseq [lazyDot, rstr " at "]), capLazyDot, dotOrEnd]),
    pim (rseq [capLazyDot, rstr " - Application"])],
   [pim (rseq [rstr "applying ", raltStrs ["for", "to"], RE.lit ' ',
      ropt (rstr "the "), capLazyDot, RE.lit ' ',
      raltStrs ["position", "role", "opportunity"]]),
    pim (rseq [rstr "application for ", ropt (rstr "the "), capLazyDot,
      RE.lit ' ', raltStrs ["at", "position", "role"]]),
    pim (rseq [rstr "position", ropt (RE.lit ':'), rspStar, capLazyDot, nlOrEnd])]⟩

/-- `SOURCE_PATTERNS.workday`. -/
def workdayPats : SourcePats :=
  ⟨[pim (rseq [rstr "thank", ralts [rstr "s", rstr " you"], rstr " for ",
      ropt (rstr "your "), rstr "interest in ", capLazyDot, dotBangOrEnd]),
    pim (rseq [rstr "on your ", capLazyDot, rstr " Application"]),
    pim (rseq [capLazyDot, rstr " - Application"]),
    pim (rseq [capLazyDot, rstr " Careers"])],
   [pim (rseq [rstr "for applying for the role of ", capLazyDot, RE.lit '.',
      rspStar, rstr "We"]),
    pim (rseq [rstr "for applying for the ", raltStrs ["role", "position"],
      rstr " of ", capLazyDot, dotBangOrEnd]),
    pim (rseq [rstr "position of", rspStar, ropt (rstr "&nbsp;"), capLazyDot,
      ralts [rseq [rspStar, ropt (rstr "&nbsp;"), raltStrs ["with", "at"], rsp],
             RE.lit '.', rseq [rspStar, RE.lit '–'], RE.eol]]),
    pim (rseq [rstr "role of", rspStar, capLazyDot,
      ralts [rseq [RE.lit '.', rspStar, rstr "We"],
             rseq [rspStar, rstr "with", rsp],
             RE.lit '.', rseq [rspStar, RE.lit '–'], RE.eol]]),
    pim (rseq [raltStrs ["role", "job", "position"], ropt (RE.lit ':'), rspStar,
      capLazyDot, nlOrEnd])]⟩

/-- `SOURCE_PATTERNS.lever`. -/
def leverPats : SourcePats :=
  ⟨[pim (rseq [rstr "thank", ralts [rstr "s", rstr " you"],
      rstr " for applying to ", capLazyDot, dotBangOrEnd]),
    pim (rseq [rstr "application ", raltStrs ["to", "at"], RE.lit ' ',
      capLazyDot, dotOrEnd])],
   [pim (rseq [rstr "applying for ", ropt (rstr "the "), capLazyDot, RE.lit ' ',
      raltStrs ["position", "role"]]),
    pim (rseq [rstr "application for ", ropt (rstr "the "), capLazyDot,
      dotOrEnd])]⟩

/-- `SOURCE_PATTERNS[sourceKey] || {}` as a partial lookup. -/
def SOURCE_PATTERNS (key : String) : Option SourcePats :=
  if key = "seek" then some seekPats
  else if key = "linkedin" then some linkedinPats
  else if key = "indeed" then some indeedPats
  else if key = "greenhouse" then some greenhousePats
  else if key = "workday" then some workdayPats
  else if key = "lever" then some leverPats
  else none

/-- `GENERIC_PATTERNS.company`. -/
def genericCompanyPats : List Pat :=
  [pim (rseq [rstr "thank", ralts [rstr "s", rstr " you"], ropt (rstr " for"),
     RE.lit ' ',
     ralts [rstr "applying",
            rseq [rstr "your ", raltStrs ["interest", "application"]]],
     RE.lit ' ', raltStrs ["to", "at", "with"], RE.lit ' ', capLazyDot,
     dotBangOrEnd]),
   pim (rseq [capLazyDot, rstr " has received your application"]),
   pim (rseq [rstr "your application ", raltStrs ["to", "at", "with"],
     RE.lit ' ', capLazyDot, dotOrEnd]),
   pim (rseq [rstr "application for ", lazyDot, rstr " at ", capLazyDot,
     dotOrEnd]),
   pim (rseq [RE.bol, capLazyDot, rstr " - ",
     raltStrs ["Application", "Thank you", "Your application"]]),
   pim (rseq [raltStrs ["position", "role", "job", "opportunity"], rstr " at ",
     capLazyDot, ralts [RE.lit '.', RE.lit ',', RE.eol]])]

/-- `GENERIC_PATTERNS.jobTitle`. -/
def genericJobTitlePats : List Pat :=
  [pim (rseq [rstr "for applying for the role of ", capLazyDot, RE.lit '.',
     rspStar, rstr "We", RE.cls false [.ch apos], rstr "ll"]),
   pim (rseq [rstr "for applying for ", ropt (rstr "the "),
     raltStrs ["role", "position"], RE.lit ' ', ropt (rstr "of "), capLazyDot,
     dotBangOrEnd]),
   pim (rseq [rstr "thank", ralts [rstr "s", rstr " you"],
     rstr " for applying for ", ropt (rstr "the "),
     RE.nla (raltStrs ["role", "position"]), capLazyDot,
     ralts [RE.lit '.', RE.lit '!', rstr " at"]]),
   pim (rseq [rstr "application for ", ropt (rstr "the "),
     ropt (rstr "position of "), capLazyDot,
     ralts [RE.lit '.', RE.lit '!', rstr " at", rstr " has", rstr " was"]]),
   pim (rseq [rstr "position of", rspStar, ropt (rstr "&nbsp;"), capLazyDot,
     ralts [rseq [RE.lit '.', rspStar, rstr "We", RE.cls false [.ch apos],
                  rstr "ll"],
            rseq [rspStar, rstr "with", rsp]]]),
   pim (rseq [rstr "position of", rspStar, ropt (rstr "&nbsp;"), capLazyDot,
     ralts [RE.lit '.',
            rseq [rspStar, ropt (rstr "&nbsp;"), raltStrs ["with", "at"], rsp]]]),
   pim (rseq [rstr "the ", capLazyDot, RE.lit ' ',
     raltStrs ["role", "position", "opportunity"]]),
   pim (rseq [raltStrs ["applying for", "applied for", "application for"],
     RE.lit ' ', ropt (rstr "the "), capLazyDot, rstr " at"]),
   pim (rseq [raltStrs ["role", "position", "job", "title"], ropt (RE.lit ':'),
     rspStar, capLazyDot, nlOrEnd])]

/-- `GENERIC_PATTERNS.location` (the gazetteer patterns carry only the `i`
flag). -/
def genericLocationPats : List Pat :=
  [pim (rseq [rstr "location", ropt (RE.lit ':'), rspStar, capLazyDot, nlOrEnd]),
   pim (rseq [rstr "based in ", capLazyDot,
     ralts [RE.lit '.', RE.lit ',', RE.eol]]),
   pi (rseq [RE.grp (raltStrs AUSTRALIAN_CITIES),
     ropt (rseq [ropt (RE.lit ','), rspStar, raltStrs AUSTRALIAN_STATES])]),
   pi (rseq [raltStrs ["position", "role", "job", "office", "located"],
     rstr " in ", RE.grp (raltStrs AUSTRALIAN_CITIES)])]

/-- `[^\s<>"]`. -/
def urlCls : RE := RE.cls true [.spc, .ch '<', .ch '>', .ch '"']

/-- `GENERIC_PATTERNS.applicationUrl`. -/
def genericUrlPats : List Pat :=
  [pi (RE.grp (rseq [rstr "http", ropt (RE.lit 's'), rstr "://",
     RE.plus false urlCls,
     ralts [rseq [rstr "/job", ropt (RE.lit 's'), RE.lit '/'],
            rseq [rstr "/career", ropt (RE.lit 's'), RE.lit '/'],
            rstr "/apply", rstr "/application", rstr "/position"],
     RE.star false urlCls])),
   pi (RE.grp (rseq [rstr "http", ropt (RE.lit 's'), rstr "://",
     RE.plus false urlCls]))]

/-- `detectSource`: test the source fragment tables against the lower-cased
sender and subject, then against the body. -/
def detectSource (e : EmailMsg) : Option String :=
  let f := strLower e.fromAddr
  let subj := strLower e.subject
  let body := strLower (textBodyOr e)
  match JOB_SOURCES.findSome? (fun sp =>
      if sp.2.any (fun p => jsIncludes f p || jsIncludes subj p)
      then some sp.1 else none) with
  | some s => some s
  | none =>
    JOB_SOURCES.findSome? (fun sp =>
      if sp.2.any (fun p => jsIncludes body p) then some sp.1 else none)

/-- `detectJobType`: first job type one of whose keywords occurs in the
lower-cased text. -/
def detectJobType (text : String) : Option String :=
  let lower := strLower text
  JOB_TYPES.findSome? (fun tp =>
    if tp.2.any (fun p => jsIncludes lower p) then some tp.1 else none)

/-! `cleanExtractedValue` and its helper passes. -/

/-- Global literal replacement (leftmost, non-overlapping), with fuel. -/
def replaceAllAux (pat repl : List Char) : Nat → List Char → List Char
  | 0, s => s
  | fuel + 1, s =>
    match s with
    | [] => []
    | c :: rest =>
      if listStarts s pat && !pat.isEmpty then
        repl ++ replaceAllAux pat repl fuel (s.drop pat.length)
      else
        c :: replaceAllAux pat repl fuel rest

/-- `s.replace(literal, repl)` with a global flag. -/
def replaceAllLit (s : List Char) (pat repl : String) : List Char :=
  replaceAllAux pat.data repl.data (s.length + 1) s

/-- `.replace(/&#\d+;/g, "")`: drop numeric HTML entities. -/
def stripNumEntitiesAux : Nat → List Char → List Char
  | 0, s => s
  | fuel + 1, s =>
    match s with
    | [] => []
    | c :: rest =>
      if c = '&' then
        match rest with
        | '#' :: r2 =>
          let ds := r2.takeWhile jsIsDigit
          if !ds.isEmpty then
            match r2.drop ds.length with
            | ';' :: r3 => stripNumEntitiesAux fuel r3
            | _ => c :: stripNumEntitiesAux fuel rest
          else c :: stripNumEntitiesAux fuel rest
        | _ => c :: stripNumEntitiesAux fuel rest
      else c :: stripNumEntitiesAux fuel rest

/-- Drop numeric HTML entities. -/
def stripNumEntities (s : List Char) : List Char :=
  stripNumEntitiesAux (s.length + 1) s

/-- `.replace(/[.,!?;:]+$/, "")`: strip the trailing punctuation run. -/
def stripTrailingPunct (s : List Char) : List Char :=
  (s.reverse.dropWhile
    (fun c => c = '.' || c = ',' || c = '!' || c = '?' || c = ';' || c = ':')).reverse

/-- Is `c` one of the quote characters of `["']`? -/
def isQuote (c : Char) : Bool := c = '"' || c = apos

/-- `.replace(/^["']|["']$/g, "")`: drop a leading and a trailing quote. -/
def stripQuotes (s : List Char) : List Char :=
  let s1 :=
    match s with
    | [] => []
    | c :: rest => if isQuote c then rest else s
  match s1.getLast? with
  | some c => if isQuote c then s1.dropLast else s1
  | none => s1

/-- `.replace(/\s+/g, " ")`: collapse whitespace runs to single spaces. -/
def collapseWsAux : Nat → List Char → List Char
  | 0, s => s
  | fuel + 1, s =>
    match s with
    | [] => []
    | c :: rest =>
      if jsIsSpace c then ' ' :: collapseWsAux fuel (rest.dropWhile jsIsSpace)
      else c :: collapseWsAux fuel rest

/-- Collapse whitespace runs to single spaces. -/
def collapseWs (s : List Char) : List Char := collapseWsAux (s.length + 1) s

/-- `/\s*(?:Pty Ltd|Ltd|Inc|LLC|Corp|Corporation)\.?$/i`. -/
def corpSuffixPat : Pat :=
  pi (rseq [rspStar,
    raltStrs ["Pty Ltd", "Ltd", "Inc", "LLC", "Corp", "Corporation"],
    ropt (RE.lit '.'), RE.eol])

/-- `/\s*(?:Hiring|Careers|Recruiting|Talent|Jobs)$/i`. -/
def roleSuffixPat : Pat :=
  pi (rseq [rspStar,
    raltStrs ["Hiring", "Careers", "Recruiting", "Talent", "Jobs"], RE.eol])

/-- The cleaning pipeline applied to a truthy extracted value, pass for pass
as in `cleanExtractedValue`. -/
def cleanVal (s : String) : String :=
  let a := jsTrim s.data
  let b := replaceAllLit a "&nbsp;" " "
  let b := replaceAllLit b "&amp;" "&"
  let b := replaceAllLit b "&lt;" "<"
  let b := replaceAllLit b "&gt;" ">"
  let c := stripNumEntities b
  let c := stripTrailingPunct c
  let c := stripQuotes c
  let c := collapseWs c
  let c := replaceFirst corpSuffixPat c []
  let c := replaceFirst roleSuffixPat c []
  String.mk (jsTrim c)

/-- `cleanExtractedValue`: `null` on a falsy input, the cleaned string
otherwise. -/
def cleanExtractedValue (value : Option String) : Option String :=
  match value with
  | none => none
  | some s => if s.isEmpty then none else some (cleanVal s)

/-- `extractCompanyFromSender`: sender-name heuristics. -/
def extractCompanyFromSender (e : EmailMsg) : Option String :=
  let nm := fromNameOr e
  let senderPats : List Pat :=
    [pi (rseq [RE.bol, capLazyDot, RE.lit ' ',
       raltStrs ["Careers", "Recruiting", "Talent", "HR", "Jobs", "Hiring",
                 "Team"], RE.eol]),
     pi (rseq [RE.bol, capLazyDot, RE.lit ' ', raltStrs ["via", "from"],
       RE.lit ' '])]
  match senderPats.findSome? (fun p =>
      (rmatch1Truthy p nm).map (fun v => cleanVal v)) with
  | some v => some v
  | none =>
    let personNamePat : Pat :=
      pn (rseq [RE.bol, RE.cls false [.rng 'A' 'Z'],
        RE.plus false (RE.cls false [.rng 'a' 'z']), RE.lit ' ',
        RE.cls false [.rng 'A' 'Z'],
        RE.plus false (RE.cls false [.rng 'a' 'z']), RE.eol])
    if !nm.isEmpty && !(rtest personNamePat nm) then
      cleanExtractedValue (some nm)
    else
      none

/-- The result record of `extractByRules`. -/
structure ExtractedData where
  company : Option String
  jobTitle : Option String
  location : Option String
  applicationUrl : Option String
  source : Option String
  jobType : Option String
deriving DecidableEq

/-- `extractLocation`: first location pattern with a truthy group, cleaned. -/
def extractLocation (text : String) : Option String :=
  genericLocationPats.findSome? (fun p =>
    (rmatch1Truthy p text).map (fun v => cleanVal v))

/-- The unsubscribe/tracking/image/privacy/mailto URL filter. -/
def urlOk (url : String) : Bool :=
  !(jsIncludes url "unsubscribe") && !(jsIncludes url "tracking") &&
  !(jsIncludes url ".png") && !(jsIncludes url ".jpg") &&
  !(jsIncludes url ".gif") && !(jsIncludes url "privacy") &&
  !(jsIncludes url "mailto:")

/-- `extractApplicationUrl`: first URL pattern whose captured URL passes the
filter. -/
def extractApplicationUrl (text : String) : Option String :=
  genericUrlPats.findSome? (fun p =>
    match rmatch1Truthy p text with
    | some url => if urlOk url then some url else none
    | none => none)

/-- First pattern of a cascade with a truthy group 1, cleaned. -/
def firstClean (pats : List Pat) (text : String) : Option String :=
  pats.findSome? (fun p => (rmatch1Truthy p text).map (fun v => cleanVal v))

/-- `sourceKey`: the detected source lower-cased with whitespace removed. -/
def sourceKeyOf (source : Option String) : Option String :=
  source.map (fun s => String.mk ((strLower s).data.filter (fun c => !jsIsSpace c)))

/-- `extractByRules`: source detection, source-specific then generic company
and job-title cascades, sender-name fallback for the company, and the
location / URL / job-type extractors, exactly in the source's order.  A
cascade stage only runs when the value so far is still falsy. -/
def extractByRules (e : EmailMsg) : ExtractedData :=
  let subject := e.subject
  let body := textBodyOr e
  let combined := subject ++ "\n" ++ body
  let source := detectSource e
  let sourcePats :=
    match sourceKeyOf source with
    | none => none
    | some key => SOURCE_PATTERNS key
  let srcCompany :=
    match sourcePats with
    | none => none
    | some sp => firstClean sp.company combined
  let company1 :=
    if jsTruthy srcCompany then srcCompany
    else
      match firstClean genericCompanyPats combined with
      | some v => some v
      | none => srcCompany
  let company :=
    if jsTruthy company1 then company1 else extractCompanyFromSender e
  let srcTitle :=
    match sourcePats with
    | none => none
    | some sp => firstClean sp.jobTitle combined
  let jobTitle :=
    if jsTruthy srcTitle then srcTitle
    else
      match firstClean genericJobTitlePats combined with
      | some v => some v
      | none => srcTitle
  { company := company
    jobTitle := jobTitle
    location := extractLocation combined
    applicationUrl := extractApplicationUrl body
    source := source
    jobType := detectJobType combined }

/-- One field of `mergeExtractedData`: overwrite only a falsy existing value
with a truthy new one. -/
def mergeField (e n : Option String) : Option String :=
  if jsTruthy n && !(jsTruthy e) then n else e

/-- `mergeExtractedData`: fill-only merge over the extraction fields. -/
def mergeExtractedData (existing newData : ExtractedData) : ExtractedData :=
  { company := mergeField existing.company newData.company
    jobTitle := mergeField existing.jobTitle newData.jobTitle
    location := mergeField existing.location newData.location
    applicationUrl := mergeField existing.applicationUrl newData.applicationUrl
    source := mergeField existing.source newData.source
    jobType := mergeField existing.jobType newData.jobType }

/-- `isExtractionComplete`: company and job title both truthy. -/
def isExtractionComplete (d : ExtractedData) : Bool :=
  jsTruthy d.company && jsTruthy d.jobTitle

/-- `needsLLMFallback`: company or job title still falsy. -/
def needsLLMFallback (d : ExtractedData) : Bool :=
  !(jsTruthy d.company) || !(jsTruthy d.jobTitle)

/-! ### The staging store (`src/app/api/email-sync/route.ts`)

The Prisma-backed `EmailImport` table (the StagedImport entity, with the
unique index `EmailImport_messageId_key` of the migration) is modelled as a
list of rows; `findUnique`/`findFirst` become `List.find?` and `create`
appends.  The requests are processed sequentially, as the handler does. -/

/-- A row of the `EmailAccount` table (the fields the sync handlers read). -/
structure EmailAccount where
  email : String
  isActive : Bool
deriving DecidableEq

/-- A row of the `EmailImport` table (the fields the sync handlers write). -/
structure EmailImportRec where
  messageId : String
  subject : String
  fromEmail : String
  fromName : Option String
  toEmail : String
  emailDate : String
  bodyText : Option String
  bodyHtml : Option String
  classification : String
  confidence : ℚ
  isOutbound : Bool
  extractedData : Option String
  status : String
deriving DecidableEq

/-- The staging database: imports and accounts. -/
structure Db where
  imports : List EmailImportRec
  accounts : List EmailAccount
deriving DecidableEq

/-- The per-batch outcome counts returned by the sync handlers. -/
structure SyncResult where
  processed : Nat
  skipped : Nat
  errors : List String
deriving DecidableEq

/-- The default `MONITORED_EMAILS` configuration of the route. -/
def MONITORED_EMAILS : List String := ["j@abaj.ai", "aayushbajaj7@gmail.com"]

/-- A `PreClassifiedImport` entry as posted by the local producers
(`extractedData` in serialized form, `none` when absent). -/
structure PreClassifiedImport where
  messageId : String
  subject : String
  fromEmail : String
  fromName : Option String
  toEmail : String
  emailDate : String
  bodyText : Option String
  bodyHtml : Option String
  classification : String
  confidence : ℚ
  isOutbound : Bool
  extractedData : Option String
deriving DecidableEq

/-- `s?.substring(0, n) || null`. -/
def jsSubstrOrNull (s : Option String) (n : Nat) : Option String :=
  match s with
  | none => none
  | some s =>
    let t := jsTake s n
    if t.isEmpty then none else some t

/-- `value || null` for a nullable string. -/
def jsOrNull (s : Option String) : Option String :=
  match s with
  | none => none
  | some s => if s.isEmpty then none else some s

/-- `prisma.emailImport.findUnique({ where: { messageId } })`. -/
def findImportByMessageId (imports : List EmailImportRec) (mid : String) :
    Option EmailImportRec :=
  imports.find? (fun r => r.messageId == mid)

/-- `prisma.emailAccount.findFirst({ where: { email: { in: MONITORED_EMAILS },
isActive: true } })`. -/
def findActiveMonitoredAccount (accounts : List EmailAccount) :
    Option EmailAccount :=
  accounts.find? (fun a => MONITORED_EMAILS.contains a.email && a.isActive)

/-- The row created for a pre-classified import (status `pending`). -/
def mkEmailImport (imp : PreClassifiedImport) : EmailImportRec :=
  { messageId := imp.messageId
    subject := imp.subject
    fromEmail := imp.fromEmail
    fromName := jsOrNull imp.fromName
    toEmail := imp.toEmail
    emailDate := imp.emailDate
    bodyText := jsSubstrOrNull imp.bodyText 10000
    bodyHtml := jsSubstrOrNull imp.bodyHtml 50000
    classification := imp.classification
    confidence := imp.confidence
    isOutbound := imp.isOutbound
    extractedData := imp.extractedData
    status := "pending" }

/-- Append a string to a list when not already present (the iteration order
of a JavaScript `Set` is insertion order). -/
def addUniq (l : List String) (s : String) : List String :=
  if l.contains s then l else l ++ [s]

/-- The `uniqueEmails` set of `handlePreClassifiedImports`. -/
def collectUniqueEmails (imports : List PreClassifiedImport) : List String :=
  imports.foldl (fun acc i => addUniq (addUniq acc i.fromEmail) i.toEmail) []

/-- `prisma.emailAccount.upsert` with an empty update: create the account
(active) only when absent. -/
def upsertAccount (accs : List EmailAccount) (email : String) : List EmailAccount :=
  if (accs.find? (fun a => a.email == email)).isSome then accs
  else accs ++ [⟨email, true⟩]

/-- The ensure-accounts fold step. -/
def ensureStep (acc : List EmailAccount) (em : String) : List EmailAccount :=
  if MONITORED_EMAILS.contains em then upsertAccount acc em else acc

/-- The ensure-accounts loop of `handlePreClassifiedImports`. -/
def ensureAccounts (accs : List EmailAccount) (imports : List PreClassifiedImport) :
    List EmailAccount :=
  (collectUniqueEmails imports).foldl
    (fun acc em => if MONITORED_EMAILS.contains em then upsertAccount acc em else acc)
    accs

/-- `const accountEmail = imp.isOutbound ? imp.fromEmail : imp.toEmail`. -/
def accountEmailOf (imp : PreClassifiedImport) : String :=
  if imp.isOutbound then imp.fromEmail else imp.toEmail

/-- The body of the per-import loop of `handlePreClassifiedImports`:
duplicate check first (skip), then account lookup (error), then create
(processed). -/
def processPreClassified (st : Db × SyncResult) (imp : PreClassifiedImport) :
    Db × SyncResult :=
  let db := st.1
  let r := st.2
  match findImportByMessageId db.imports imp.messageId with
  | some _ => (db, { r with skipped := r.skipped + 1 })
  | none =>
    match findActiveMonitoredAccount db.accounts with
    | none =>
      (db, { r with errors :=
        r.errors ++ ["No email account for " ++ accountEmailOf imp] })
    | some _ =>
      ({ db with imports := db.imports ++ [mkEmailImport imp] },
       { r with processed := r.processed + 1 })

/-- `handlePreClassifiedImports`: ensure accounts, then process the batch
entries independently, accumulating counts. -/
def handlePreClassifiedImports (db : Db) (imports : List PreClassifiedImport) :
    Db × SyncResult :=
  let db1 : Db := { db with accounts := ensureAccounts db.accounts imports }
  imports.foldl processPreClassified (db1, ⟨0, 0, []⟩)

/-! ### The server-side LLM classifier (`src/lib/email/classifier.ts`) -/

/-- The `ExtractedJobData` shape of the server classifier's schema. -/
structure ServerExtracted where
  company : Option String
  jobTitle : Option String
  location : Option String
  applicationUrl : Option String
  recruiterName : Option String
  interviewDate : Option String
  deadline : Option String
  salaryRange : Option String
deriving DecidableEq

/-- All-null extracted data. -/
def emptyServerExtracted : ServerExtracted :=
  ⟨none, none, none, none, none, none, none, none⟩

/-- The `EmailClassification` result shape of the server classifier. -/
structure EmailClassification where
  type : String
  confidence : ℚ
  reasoning : String
  extractedData : ServerExtracted
deriving DecidableEq

/-- The outcome of the awaited `generateObject` call in `classifyEmail`: a
parsed object, or any thrown failure (parse error, non-success HTTP status,
network error) with its message. -/
inductive GenerateOutcome where
  | ok (type : String) (confidence : ℚ) (reasoning : String)
      (extractedData : ServerExtracted)
  | err (msg : String)

/-- `classifyEmail`: the result of the model call on success, and on ANY
caught error the safe default — a classification of type `other` with
confidence 0 (not a null result). -/
def classifyEmail : GenerateOutcome → EmailClassification
  | .ok t c r ed => ⟨t, c, r, ed⟩
  | .err msg =>
    ⟨"other", conf00, "Classification failed: " ++ msg, emptyServerExtracted⟩

/-- `isJobRelated` (server): the type is not `other`. -/
def isJobRelated (c : EmailClassification) : Bool := c.type != "other"

/-- `meetsConfidenceThreshold` (server): `confidence >= threshold`; the
default threshold argument of the source is 0.6 and every caller uses it. -/
def meetsConfidenceThreshold (c : EmailClassification) (threshold : ℚ) : Bool :=
  threshold ≤ c.confidence

/-! ### The local-mode sync path (`handleLocalMode` in the route) -/

/-- The `ParsedEmail` record of the server parser, as consumed by
`handleLocalMode`. -/
structure ParsedServerEmail where
  messageId : String
  subject : String
  fromAddr : String
  fromName : Option String
  toAddr : String
  date : String
  textBody : Option String
  htmlBody : Option String
  isOutbound : Bool
deriving DecidableEq

/-- A simple serialization standing for `JSON.stringify` of the extracted
data (its content is never re-read by the pipeline). -/
def serializeServerExtracted (ed : ServerExtracted) : String :=
  String.intercalate "|"
    ([ed.company, ed.jobTitle, ed.location, ed.applicationUrl, ed.recruiterName,
      ed.interviewDate, ed.deadline, ed.salaryRange].map (fun o => o.getD ""))

/-- The row created by `handleLocalMode` for a staged message. -/
def mkEmailImportFromParsed (p : ParsedServerEmail) (c : EmailClassification) :
    EmailImportRec :=
  { messageId := p.messageId
    subject := p.subject
    fromEmail := p.fromAddr
    fromName := p.fromName
    toEmail := p.toAddr
    emailDate := p.date
    bodyText := jsSubstrOrNull p.textBody 10000
    bodyHtml := jsSubstrOrNull p.htmlBody 50000
    classification := c.type
    confidence := c.confidence
    isOutbound := p.isOutbound
    extractedData := some (serializeServerExtracted c.extractedData)
    status := "pending" }

/-- The outcome of one iteration of the `handleLocalMode` loop, after the
message was parsed and classified. -/
structure LocalStepOut where
  db : Db
  processedInc : Nat
  skippedInc : Nat
  markedProcessed : Bool
deriving DecidableEq

/-- One iteration of `handleLocalMode` for a parsed message and its
classification: duplicate check, the job-related/confidence gate (discarded
messages are still marked processed in notmuch), account lookup, then create
and mark processed. -/
def handleLocalModeStep (db : Db) (p : ParsedServerEmail) (c : EmailClassification) :
    LocalStepOut :=
  match findImportByMessageId db.imports p.messageId with
  | some _ => ⟨db, 0, 1, false⟩
  | none =>
    if !(isJobRelated c) || !(meetsConfidenceThreshold c threshold06) then
      ⟨db, 0, 1, true⟩
    else
      match findActiveMonitoredAccount db.accounts with
      | none => ⟨db, 0, 1, false⟩
      | some _ =>
        ⟨{ db with imports := db.imports ++ [mkEmailImportFromParsed p c] },
         1, 0, true⟩

/-! ### The local producer (`scripts/jobsync-local-sync.js`) -/

/-- The extracted-data shape of the local Ollama classifier. -/
structure LocalExtracted where
  company : Option String
  jobTitle : Option String
  location : Option String
  applicationUrl : Option String
  recruiterName : Option String
  salaryRange : Option String
deriving DecidableEq

/-- The default `{}` of `result.extractedData || {}`. -/
def emptyLocalExtracted : LocalExtracted := ⟨none, none, none, none, none, none⟩

/-- The local classification record produced by `classifyWithOllama`. -/
structure LocalClassification where
  type : String
  confidence : ℚ
  extractedData : LocalExtracted
deriving DecidableEq

/-- The outcome of the Ollama HTTP call in `classifyWithOllama`: a network
error of `fetch`, a non-ok HTTP status (thrown and caught), an unparseable
response body (thrown and caught), or a parsed JSON object with its
possibly-missing fields. -/
inductive OllamaOutcome where
  | fetchError
  | httpNotOk (status : Nat)
  | badResponseJson
  | parsed (type : Option String) (confidence : Option ℚ)
      (extractedData : Option LocalExtracted)

/-- `value || default` for a nullable string. -/
def jsOrStr (o : Option String) (d : String) : String :=
  match o with
  | none => d
  | some s => if s.isEmpty then d else s

/-- `value || default` for a nullable number (0 is falsy). -/
def jsOrRat (o : Option ℚ) (d : ℚ) : ℚ :=
  match o with
  | none => d
  | some x => if x = 0 then d else x

/-- `classifyWithOllama`: `null` on every failure (fetch error, non-success
status, unparseable JSON); on success the parsed fields with defaults
`other` / 0.5 / `{}`. -/
def classifyWithOllama : OllamaOutcome → Option LocalClassification
  | .fetchError => none
  | .httpNotOk _ => none
  | .badResponseJson => none
  | .parsed t c ed => some ⟨jsOrStr t "other", jsOrRat c conf05, ed.getD emptyLocalExtracted⟩

/-- `isJobRelated` of the local script (on its string-typed results). -/
def isJobRelatedLocal (c : LocalClassification) : Bool := c.type != "other"

/-- What one iteration of the local producer's main loop decides for a
parsed message: whether it is queued for the staging POST and whether it is
tagged `jobsync-processed`. -/
structure ProducerOut where
  queued : Bool
  markedProcessed : Bool
deriving DecidableEq

/-- One iteration of the producer loop after parsing: a failed classification
is left untagged for retry; a non-job-related or low-confidence
classification is discarded but tagged processed; otherwise the message is
queued for the server and tagged processed. -/
def localSyncStep (cls : Option LocalClassification) : ProducerOut :=
  match cls with
  | none => ⟨false, false⟩
  | some c =>
    if !(isJobRelatedLocal c) || c.confidence < threshold06 then ⟨false, true⟩
    else ⟨true, true⟩

/-! ### The corrections scanner (`scripts/jobsync-scan-corrections.js`) -/

/-- The HTTP methods relevant to the ingestion endpoint. -/
inductive HttpMethod where
  | POST
  | PATCH
  | GET
  | DELETE
deriving DecidableEq

/-- The handlers exported by `src/app/api/email-sync/route.ts`: `POST`,
`PATCH` and `GET`; the file exports no `DELETE` handler. -/
def emailSyncExportedMethods : List HttpMethod :=
  [.POST, .PATCH, .GET]

/-- The HTTP method of the requests issued by `deleteFromServer`
(`fetch(url, { method: "DELETE", ... })` with the messageId as a query
parameter). -/
def deleteFromServerMethod : HttpMethod := .DELETE

/-- The import entry synthesized for a promotion (`"other"` corrected to a
job-related type): user-corrected classifications carry confidence 1.0 and
empty extracted data. -/
def promotionImport (emailData : EmailMsg) (correctedType : String) :
    PreClassifiedImport :=
  { messageId := emailData.messageId
    subject := emailData.subject
    fromEmail := emailData.fromAddr
    fromName := emailData.fromName
    toEmail := emailData.toAddr
    emailDate := emailData.date
    bodyText := some (jsTake (textBodyOr emailData) 10000)
    bodyHtml := some (jsTake (jsOrStr emailData.htmlBody "") 50000)
    classification := correctedType
    confidence := conf100
    isOutbound := emailData.isOutbound
    extractedData := some "" }

/-- The server call a correction entry is routed to. -/
inductive ScanAction where
  | postImport (imp : PreClassifiedImport)
  | patchCorrection (messageId originalType correctedType : String)
  | deleteRequest (messageId : String)
deriving DecidableEq

/-- The outcome of one scanner entry: whether the correction was appended to
the few-shot pool, and the server action it was routed to. -/
structure ScanEntryOut where
  highVariance : Bool
  action : Option ScanAction
deriving DecidableEq

/-- The per-entry routing of the scanner's main loop: skip when the original
type is missing or unchanged; otherwise partition into promotion (POST with
confidence 1.0), demotion (single-message DELETE by messageId) or in-place
correction (PATCH), and append to the few-shot pool exactly the
high-variance corrections. -/
def processCorrectionEntry (emailData : EmailMsg) (origType correctedType : String) :
    Option ScanEntryOut :=
  if origType.isEmpty || origType == correctedType then none
  else
    let highVariance := isHighVarianceCorrection emailData origType correctedType
    let action : Option ScanAction :=
      if origType == "other" && correctedType != "other" then
        some (.postImport (promotionImport emailData correctedType))
      else if correctedType == "other" && origType != "other" then
        some (.deleteRequest emailData.messageId)
      else if origType != "other" && correctedType != "other" then
        some (.patchCorrection emailData.messageId origType correctedType)
      else none
    some ⟨highVariance, action⟩

/-! ### The local parser (`parseEmailFile` of the sync scripts) -/

/-- The decimal digit character for `n < 10`. -/
def digitChar (n : Nat) : Char := Char.ofNat (48 + n)

/-- Decimal digits of a natural number, most significant first (with fuel). -/
def natDecimalAux : Nat → Nat → List Char
  | 0, _ => []
  | fuel + 1, n =>
    if n < 10 then [digitChar n]
    else natDecimalAux fuel (n / 10) ++ [digitChar (n % 10)]

/-- Decimal digits of a natural number, as printed by template
interpolation. -/
def natDecimal (n : Nat) : List Char := natDecimalAux (n + 1) n

/-- The generated message identifier
`` `generated-${Date.now()}-${Math.random()}` ``; the timestamp and the
random draw are the two natural-number tokens of the run state (the printed
form of the random draw is abstracted to its decimal digits). -/
def genId (nowMs rand : Nat) : String :=
  String.mk ("generated-".data ++ (natDecimal nowMs ++ ('-' :: natDecimal rand)))

/-- The value denoted by a digit string (most significant first). -/
def digitsVal (l : List Char) : Nat :=
  l.foldl (fun a c => a * 10 + (c.toNat - 48)) 0

/-- The fields `simpleParser` produces from a raw email file that the local
`parseEmailFile` consumes. -/
structure RawEmail where
  messageIdHeader : Option String
  subject : Option String
  fromAddr : String
  fromName : Option String
  toAddr : String
  date : Option String
  text : Option String
  html : Option String

/-- `parseEmailFile` of `jobsync-local-sync.js` on a successfully parsed
file: the messageId is the Message-ID header when present, otherwise a
freshly generated identifier from the current timestamp and a random draw. -/
def parseEmailFileModel (f : RawEmail) (nowMs rand : Nat) : EmailMsg :=
  { messageId :=
      match f.messageIdHeader with
      | some mid => mid
      | none => genId nowMs rand
    fromAddr := f.fromAddr
    fromName := f.fromName
    toAddr := f.toAddr
    subject := jsOrStr f.subject "(No subject)"
    date := jsOrStr f.date ""
    textBody := f.text
    htmlBody := f.html
    isOutbound := MONITORED_EMAILS.any (fun em => strLower f.fromAddr == strLower em) }

/-! ### Concrete inputs used by the witnesses and counterexamples -/

/-- A fresh import used by the idempotency witness. -/
def c1Imp : PreClassifiedImport :=
  ⟨"mid-1", "subj", "sender@x.com", none, "j@abaj.ai", "2024-01-01", none, none,
   "interview", conf095, false, none⟩

/-- A message matched by an interview rule but no `other` rule. -/
def ruleWitnessInterview : EmailMsg :=
  ⟨"m1", "recruiter@company.com", none, "me@x.com", "phone screen", "", none,
   none, false⟩

/-- A message matched both by an `other` rule (job-alert subject) and by an
interview rule (phone screen). -/
def ruleWitnessBoth : EmailMsg :=
  ⟨"m2", "", none, "me@x.com", "job alert phone screen", "", none, none, false⟩

/-- The result of classifying `ruleWitnessInterview`. -/
def ruleWitnessInterviewRes : RuleResult :=
  mkRuleResult "interview" ⟨.subjectF, pi (rstr "phone screen"), none, "phone-screen"⟩

/-- A correction on a rule-matched message used by the C7 witness. -/
def c7Out : ScanEntryOut :=
  ⟨false, some (.patchCorrection "m1" "rejection" "interview")⟩

/-- A message no rule matches, demoted from `rejection` to `other`. -/
def demotionEmail : EmailMsg :=
  ⟨"demo-id", "a@b.c", none, "me@x.com", "zzz zzz", "", none, none, false⟩

/-- The staging database of the C3 witness: empty store, one active
monitored account. -/
def c3Db : Db := ⟨[], [⟨"j@abaj.ai", true⟩]⟩

/-- The parsed message of the C3 witness. -/
def c3Parsed : ParsedServerEmail :=
  ⟨"mid-3", "subj", "a@b.c", none, "me@x.com", "2024-01-01", none, none, false⟩

/-- An interview classification with confidence exactly 0.6. -/
def c3Cls : EmailClassification := ⟨"interview", threshold06, "r", emptyServerExtracted⟩

/-- The literal body of the round-trip extraction check. -/
def c8Body : String :=
  "your application for Senior Backend Engineer was successfully submitted to Acme Pty Ltd."

/-- A message carrying only the round-trip body, with no sender or subject
identifying a job board. -/
def c8BareMsg : EmailMsg := ⟨"m", "", none, "", "", "", some c8Body, none, false⟩

/-- The same body delivered from a SEEK sender. -/
def c8SeekMsg : EmailMsg :=
  ⟨"m", "noreply@seek.com.au", none, "", "", "", some c8Body, none, false⟩

/-- A headerless raw email file. -/
def c10File : RawEmail := ⟨none, some "s", "a@b.c", none, "me@x.com", none, none, none⟩

/-! ### Helper lemmas -/

/-- `conf095` is the decimal `0.95`. -/
theorem conf095_eq : conf095 = 0.95 := by
  show (⟨19, 20, by norm_num, by norm_num⟩ : ℚ) = 0.95
  rw [Rat.mk'_eq_divInt, Rat.divInt_eq_div]
  norm_num

/-- `threshold06` is the decimal `0.6`. -/
theorem threshold06_eq : threshold06 = 0.6 := by
  show (⟨3, 5, by norm_num, by norm_num⟩ : ℚ) = 0.6
  rw [Rat.mk'_eq_divInt, Rat.divInt_eq_div]
  norm_num

/-- `conf059` is the decimal `0.59`. -/
theorem conf059_eq : conf059 = 0.59 := by
  show (⟨59, 100, by norm_num, by norm_num⟩ : ℚ) = 0.59
  rw [Rat.mk'_eq_divInt, Rat.divInt_eq_div]
  norm_num

/-- `conf100` is `1`. -/
theorem conf100_eq : conf100 = 1 := by
  show (⟨1, 1, by norm_num, by norm_num⟩ : ℚ) = 1
  rw [Rat.mk'_eq_divInt, Rat.divInt_eq_div]
  norm_num

/-- `conf05` is the decimal `0.5`. -/
theorem conf05_eq : conf05 = 0.5 := by
  show (⟨1, 2, by norm_num, by norm_num⟩ : ℚ) = 0.5
  rw [Rat.mk'_eq_divInt, Rat.divInt_eq_div]
  norm_num

/-- `conf00` is `0`. -/
theorem conf00_eq : conf00 = 0 := by
  show (⟨0, 1, by norm_num, by norm_num⟩ : ℚ) = 0
  rw [Rat.mk'_eq_divInt, Rat.divInt_eq_div]
  norm_num

theorem find?_isSome_of_any {α : Type} {p : α → Bool} {l : List α}
    (h : l.any p = true) : ∃ y, l.find? p = some y := by
  induction l with
  | nil => simp at h
  | cons a l ih =>
    by_cases ha : p a
    · exact ⟨a, by simp [List.find?, ha]⟩
    · simp [List.any_cons, ha] at h
      obtain ⟨y, hy⟩ := ih (by simpa using h)
      exact ⟨y, by simp [List.find?, ha, hy]⟩

theorem any_eq_false_find? {α : Type} {p : α → Bool} {l : List α}
    (h : l.any p = false) : l.find? p = none := by
  induction l with
  | nil => rfl
  | cons a l ih =>
    have h1 : p a = false := by
      cases h1 : p a with
      | false => rfl
      | true => simp [List.any_cons, h1] at h
    have h2 : l.any p = false := by
      cases h2 : l.any p with
      | false => rfl
      | true => simp [List.any_cons, h2] at h
    simp [List.find?, h1, ih h2]

theorem find?_none_of_all_ne {p : String} {l : List EmailImportRec}
    (h : ∀ rec ∈ l, rec.messageId ≠ p) :
    findImportByMessageId l p = none := by
  unfold findImportByMessageId
  induction l with
  | nil => rfl
  | cons a l ih =>
    have ha : (a.messageId == p) = false := by
      simpa using h a (List.mem_cons_self a l)
    have hrest := ih (fun rec hrec => h rec (List.mem_cons_of_mem a hrec))
    simpa [List.find?, ha] using hrest

theorem find?_isSome_of_mem_eq {p : String} {l : List EmailImportRec}
    (h : ∃ rec ∈ l, rec.messageId = p) :
    ∃ y, findImportByMessageId l p = some y := by
  unfold findImportByMessageId
  apply find?_isSome_of_any
  obtain ⟨rec, hmem, heq⟩ := h
  exact List.any_eq_true.mpr ⟨rec, hmem, by simp [heq]⟩

/-- The generic shape of a `classifyByRules` success, by induction over the
label priority list. -/
theorem findSomeRules_shape (e : EmailMsg) :
    ∀ (tys : List String) (res : RuleResult),
      tys.findSome? (fun ty =>
        ((CLASSIFICATION_RULES ty).find? (matchesCRule e)).map (mkRuleResult ty)) =
        some res →
      res.type ∈ tys ∧ res.confidence = conf095 ∧ res.ruleMatched = true ∧
        ∃ r, (CLASSIFICATION_RULES res.type).find? (matchesCRule e) = some r ∧
          res = mkRuleResult res.type r := by
  intro tys
  induction tys with
  | nil => intro res h; simp [List.findSome?] at h
  | cons t ts ih =>
    intro res h
    rw [List.findSome?_cons] at h
    cases hf : (CLASSIFICATION_RULES t).find? (matchesCRule e) with
    | none =>
      rw [hf] at h
      simp only [Option.map_none'] at h
      obtain ⟨hmem, hconf, hrm, r, hr, hres⟩ := ih res h
      exact ⟨List.mem_cons_of_mem t hmem, hconf, hrm, r, hr, hres⟩
    | some r =>
      rw [hf] at h
      simp only [Option.map_some'] at h
      obtain rfl : mkRuleResult t r = res := by exact Option.some.inj h
      refine ⟨List.mem_cons_self t ts, rfl, rfl, r, ?_, rfl⟩
      simpa [mkRuleResult] using hf

/-- No label matches: `classifyByRules` yields `null`. -/
theorem findSomeRules_none (e : EmailMsg) :
    ∀ tys : List String,
      (∀ ty ∈ tys, anyRuleMatches e (CLASSIFICATION_RULES ty) = false) →
      tys.findSome? (fun ty =>
        ((CLASSIFICATION_RULES ty).find? (matchesCRule e)).map (mkRuleResult ty)) =
        none := by
  intro tys
  induction tys with
  | nil => intro _; rfl
  | cons t ts ih =>
    intro h
    rw [List.findSome?_cons]
    have ht := h t (List.mem_cons_self t ts)
    rw [any_eq_false_find? ht]
    exact ih (fun ty hty => h ty (List.mem_cons_of_mem t hty))

/-! Decimal-identifier lemmas for the generated messageIds. -/

theorem digitChar_toNat {n : Nat} (h : n < 10) : (digitChar n).toNat = 48 + n := by
  interval_cases n <;> decide

theorem digitChar_isDigit {n : Nat} (h : n < 10) : jsIsDigit (digitChar n) = true := by
  interval_cases n <;> decide

theorem natDecimalAux_digits :
    ∀ (fuel n : Nat), n < fuel → ∀ c ∈ natDecimalAux fuel n, jsIsDigit c = true := by
  intro fuel
  induction fuel with
  | zero => intro n h; omega
  | succ f ih =>
    intro n h c hc
    by_cases h10 : n < 10
    · simp [natDecimalAux, h10] at hc
      subst hc
      exact digitChar_isDigit h10
    · simp [natDecimalAux, h10] at hc
      rcases hc with hc | hc
      · have hlt : n / 10 < f := by
          have h1 : n / 10 < n := Nat.div_lt_self (by omega) (by omega)
          omega
        exact ih (n / 10) hlt c hc
      · subst hc
        exact digitChar_isDigit (Nat.mod_lt _ (by omega))

theorem natDecimalAux_foldl :
    ∀ (fuel n : Nat), n < fuel → ∀ a : Nat,
      List.foldl (fun a c => a * 10 + (c.toNat - 48)) a (natDecimalAux fuel n) =
        a * 10 ^ (natDecimalAux fuel n).length + n := by
  intro fuel
  induction fuel with
  | zero => intro n h; omega
  | succ f ih =>
    intro n h a
    by_cases h10 : n < 10
    · simp [natDecimalAux, h10, digitChar_toNat h10]
    · have hlt : n / 10 < f := by
        have h1 : n / 10 < n := Nat.div_lt_self (by omega) (by omega)
        omega
      simp only [natDecimalAux, h10, if_false]
      rw [List.foldl_append, ih (n / 10) hlt a]
      have hmod : 10 * (n / 10) + n % 10 = n := Nat.div_add_mod n 10
      have hm10 : n % 10 < 10 := Nat.mod_lt _ (by omega)
      simp only [List.foldl_cons, List.foldl_nil, List.length_append,
        List.length_cons, List.length_nil, digitChar_toNat hm10]
      calc (a * 10 ^ (natDecimalAux f (n / 10)).length + n / 10) * 10 + (48 + n % 10 - 48)
          = a * (10 ^ (natDecimalAux f (n / 10)).length * 10) +
              (10 * (n / 10) + n % 10) := by ring_nf; omega
        _ = a * 10 ^ ((natDecimalAux f (n / 10)).length + 0 + 1) + n := by
              rw [hmod, Nat.add_zero, Nat.pow_succ]

theorem natDecimal_val (n : Nat) : digitsVal (natDecimal n) = n := by
  unfold digitsVal natDecimal
  have h := natDecimalAux_foldl (n + 1) n (by omega) 0
  simpa using h

theorem natDecimal_inj {a b : Nat} (h : natDecimal a = natDecimal b) : a = b := by
  have ha := natDecimal_val a
  rw [h, natDecimal_val] at ha
  omega

theorem natDecimal_digits (n : Nat) : ∀ c ∈ natDecimal n, jsIsDigit c = true :=
  natDecimalAux_digits (n + 1) n (by omega)

theorem digits_dash_split :
    ∀ (la lb sa sb : List Char),
      (∀ c ∈ la, jsIsDigit c = true) → (∀ c ∈ lb, jsIsDigit c = true) →
      la ++ '-' :: sa = lb ++ '-' :: sb → la = lb ∧ sa = sb := by
  intro la
  induction la with
  | nil =>
    intro lb sa sb _ hlb h
    cases lb with
    | nil =>
      simp at h
      exact ⟨rfl, h⟩
    | cons d lb' =>
      simp at h
      have hd := hlb d (by simp)
      rw [← h.1] at hd
      exact absurd hd (by decide)
  | cons c la' ih =>
    intro lb sa sb hla hlb h
    cases lb with
    | nil =>
      simp at h
      have hc := hla c (by simp)
      rw [h.1] at hc
      exact absurd hc (by decide)
    | cons d lb' =>
      simp at h
      obtain ⟨rfl, h2⟩ := h
      obtain ⟨h3, h4⟩ := ih lb' sa sb
        (fun x hx => hla x (by simp [hx]))
        (fun x hx => hlb x (by simp [hx])) h2
      exact ⟨by rw [h3], h4⟩

theorem genId_inj {t₁ r₁ t₂ r₂ : Nat} (h : genId t₁ r₁ = genId t₂ r₂) :
    t₁ = t₂ ∧ r₁ = r₂ := by
  unfold genId at h
  have hdata : "generated-".data ++ (natDecimal t₁ ++ ('-' :: natDecimal r₁)) =
      "generated-".data ++ (natDecimal t₂ ++ ('-' :: natDecimal r₂)) :=
    congrArg String.data h
  have h2 := List.append_cancel_left hdata
  obtain ⟨hT, hR⟩ := digits_dash_split _ _ _ _
    (natDecimal_digits t₁) (natDecimal_digits t₂) h2
  exact ⟨natDecimal_inj hT, natDecimal_inj hR⟩

/-! Account-upsert lemmas for the pre-classified import handler. -/

theorem mem_upsertAccount_self (accs : List EmailAccount) (em : String) :
    ∃ a ∈ upsertAccount accs em, a.email = em := by
  unfold upsertAccount
  cases hf : accs.find? (fun a => a.email == em) with
  | some a =>
    have hmem := List.mem_of_find?_eq_some hf
    have hprop := List.find?_some hf
    refine ⟨a, ?_, by simpa using hprop⟩
    simp [hf, hmem]
  | none => exact ⟨⟨em, true⟩, by simp [hf], rfl⟩

theorem mem_upsertAccount_mono {accs : List EmailAccount} {em' : String}
    {P : EmailAccount → Prop} (h : ∃ a ∈ accs, P a) :
    ∃ a ∈ upsertAccount accs em', P a := by
  obtain ⟨a, ha, hP⟩ := h
  unfold upsertAccount
  split
  · exact ⟨a, ha, hP⟩
  · exact ⟨a, List.mem_append_left _ ha, hP⟩

theorem upsertAccount_all_active {accs : List EmailAccount} {em : String}
    (h : ∀ a ∈ accs, a.isActive = true) :
    ∀ a ∈ upsertAccount accs em, a.isActive = true := by
  intro a ha
  unfold upsertAccount at ha
  split at ha
  · exact h a ha
  · rcases List.mem_append.mp ha with hmem | hmem
    · exact h a hmem
    · simp at hmem
      rw [hmem]

theorem ensureAccounts_eq_foldl (accs : List EmailAccount)
    (imports : List PreClassifiedImport) :
    ensureAccounts accs imports = (collectUniqueEmails imports).foldl ensureStep accs :=
  rfl

theorem foldl_ensureStep_pres :
    ∀ (ems : List String) (accs : List EmailAccount) {P : EmailAccount → Prop},
      (∃ a ∈ accs, P a) → ∃ a ∈ ems.foldl ensureStep accs, P a := by
  intro ems
  induction ems with
  | nil => intro accs _ h; exact h
  | cons e es ih =>
    intro accs P h
    apply ih
    unfold ensureStep
    split
    · exact mem_upsertAccount_mono h
    · exact h

theorem foldl_ensureStep_mem :
    ∀ (ems : List String) (accs : List EmailAccount) (em : String),
      em ∈ ems → MONITORED_EMAILS.contains em = true →
      ∃ a ∈ ems.foldl ensureStep accs, a.email = em := by
  intro ems
  induction ems with
  | nil => intro accs em h; simp at h
  | cons e es ih =>
    intro accs em hmem hmon
    rcases List.mem_cons.mp hmem with rfl | hmem'
    · rw [List.foldl_cons]
      apply foldl_ensureStep_pres
      unfold ensureStep
      rw [if_pos hmon]
      exact mem_upsertAccount_self accs em
    · rw [List.foldl_cons]
      exact ih _ em hmem' hmon

theorem foldl_ensureStep_all_active :
    ∀ (ems : List String) (accs : List EmailAccount),
      (∀ a ∈ accs, a.isActive = true) →
      ∀ a ∈ ems.foldl ensureStep accs, a.isActive = true := by
  intro ems
  induction ems with
  | nil => intro accs h; exact h
  | cons e es ih =>
    intro accs h
    apply ih
    unfold ensureStep
    split
    · exact upsertAccount_all_active h
    · exact h

theorem mem_addUniq_self (l : List String) (s : String) : s ∈ addUniq l s := by
  unfold addUniq
  split
  · next h => exact List.mem_of_elem_eq_true h
  · exact List.mem_append_right _ (by simp)

theorem findActiveMonitoredAccount_isSome
    {accs : List EmailAccount} {em : String}
    (hmem : ∃ a ∈ accs, a.email = em)
    (hmon : MONITORED_EMAILS.contains em = true)
    (hact : ∀ a ∈ accs, a.isActive = true) :
    ∃ y, findActiveMonitoredAccount accs = some y := by
  unfold findActiveMonitoredAccount
  apply find?_isSome_of_any
  obtain ⟨a, ha, hemail⟩ := hmem
  refine List.any_eq_true.mpr ⟨a, ha, ?_⟩
  rw [hemail, hmon, hact a ha]
  rfl

/-! Idempotency lemmas for `handlePreClassifiedImports`. -/

theorem processPreClassified_nodup (st : Db × SyncResult) (imp : PreClassifiedImport)
    (h : (st.1.imports.map (fun r => r.messageId)).Nodup) :
    (((processPreClassified st imp).1.imports).map (fun r => r.messageId)).Nodup := by
  unfold processPreClassified
  cases hf : findImportByMessageId st.1.imports imp.messageId with
  | some _ => simpa [hf]
  | none =>
    cases ha : findActiveMonitoredAccount st.1.accounts with
    | none => simpa [hf, ha]
    | some _ =>
      simp only [hf, ha, List.map_append]
      rw [List.nodup_append]
      refine ⟨h, List.nodup_singleton _, ?_⟩
      intro x hx hx2
      simp [mkEmailImport] at hx2
      subst hx2
      obtain ⟨rec, hrec, hid⟩ := List.mem_map.mp hx
      unfold findImportByMessageId at hf
      have hne := List.find?_eq_none.mp hf rec hrec
      simp [hid] at hne

theorem foldl_processPreClassified_nodup :
    ∀ (imports : List PreClassifiedImport) (st : Db × SyncResult),
      (st.1.imports.map (fun r => r.messageId)).Nodup →
      (((imports.foldl processPreClassified st).1.imports).map
        (fun r => r.messageId)).Nodup := by
  intro imports
  induction imports with
  | nil => intro st h; exact h
  | cons i is ih => intro st h; exact ih _ (processPreClassified_nodup st i h)

theorem handlePreClassified_duplicate_noop
    (db : Db) (imp : PreClassifiedImport)
    (h : ∃ rec ∈ db.imports, rec.messageId = imp.messageId) :
    (handlePreClassifiedImports db [imp]).1.imports = db.imports ∧
    (handlePreClassifiedImports db [imp]).2 = ⟨0, 1, []⟩ := by
  obtain ⟨y, hy⟩ := find?_isSome_of_mem_eq h
  unfold handlePreClassifiedImports
  simp only [List.foldl_cons, List.foldl_nil]
  unfold processPreClassified
  simp [hy]

theorem handlePreClassified_creates
    (db : Db) (imp : PreClassifiedImport)
    (hfresh : ∀ rec ∈ db.imports, rec.messageId ≠ imp.messageId)
    (hact : ∀ a ∈ db.accounts, a.isActive = true)
    (hmon : MONITORED_EMAILS.contains imp.toEmail = true) :
    (handlePreClassifiedImports db [imp]).1.imports =
      db.imports ++ [mkEmailImport imp] ∧
    (handlePreClassifiedImports db [imp]).2 = ⟨1, 0, []⟩ := by
  have hte : imp.toEmail ∈ collectUniqueEmails [imp] := by
    show imp.toEmail ∈ addUniq (addUniq [] imp.fromEmail) imp.toEmail
    exact mem_addUniq_self _ _
  have hex : ∃ a ∈ ensureAccounts db.accounts [imp], a.email = imp.toEmail := by
    rw [ensureAccounts_eq_foldl]
    exact foldl_ensureStep_mem _ _ _ hte hmon
  have hactive : ∀ a ∈ ensureAccounts db.accounts [imp], a.isActive = true := by
    rw [ensureAccounts_eq_foldl]
    exact foldl_ensureStep_all_active _ _ hact
  obtain ⟨y, hy⟩ := findActiveMonitoredAccount_isSome hex hmon hactive
  have hnone : findImportByMessageId db.imports imp.messageId = none :=
    find?_none_of_all_ne hfresh
  unfold handlePreClassifiedImports
  simp only [List.foldl_cons, List.foldl_nil]
  unfold processPreClassified
  simp [hnone, hy]

theorem filter_messageId_nil {l : List EmailImportRec} {mid : String}
    (h : ∀ rec ∈ l, rec.messageId ≠ mid) :
    l.filter (fun r => r.messageId == mid) = [] := by
  induction l with
  | nil => rfl
  | cons a l ih =>
    have ha : (a.messageId == mid) = false := by
      simpa using h a (List.mem_cons_self a l)
    have hrest := ih (fun rec hrec => h rec (List.mem_cons_of_mem a hrec))
    simpa [List.filter_cons, ha] using hrest

/-! ### Claim theorems -/

/-- Claim C1: the staged-import store keeps at most one record per
messageId.  (a) processing any batch preserves distinctness of the stored
messageIds; (b) submitting a creation whose messageId is already staged
leaves the store unchanged and reports it as skipped, not as an error;
(c) two identical submissions of a fresh message yield exactly one stored
record, the second call reporting skipped 1 and no errors. -/
theorem stagedImport_unique_per_messageId :
    (∀ (db : Db) (imports : List PreClassifiedImport),
      (db.imports.map (fun r => r.messageId)).Nodup →
      ((handlePreClassifiedImports db imports).1.imports.map
        (fun r => r.messageId)).Nodup) ∧
    (∀ (db : Db) (imp : PreClassifiedImport),
      (∃ rec ∈ db.imports, rec.messageId = imp.messageId) →
      (handlePreClassifiedImports db [imp]).1.imports = db.imports ∧
      (handlePreClassifiedImports db [imp]).2 = ⟨0, 1, []⟩) ∧
    (∀ (db : Db) (imp : PreClassifiedImport),
      (∀ rec ∈ db.imports, rec.messageId ≠ imp.messageId) →
      (∀ a ∈ db.accounts, a.isActive = true) →
      MONITORED_EMAILS.contains imp.toEmail = true →
      ((handlePreClassifiedImports (handlePreClassifiedImports db [imp]).1
          [imp]).1.imports.filter (fun r => r.messageId == imp.messageId)).length = 1 ∧
      (handlePreClassifiedImports (handlePreClassifiedImports db [imp]).1
          [imp]).1.imports = (handlePreClassifiedImports db [imp]).1.imports ∧
      (handlePreClassifiedImports (handlePreClassifiedImports db [imp]).1
          [imp]).2 = ⟨0, 1, []⟩) := by
  refine ⟨?_, ?_, ?_⟩
  · intro db imports h
    unfold handlePreClassifiedImports
    exact foldl_processPreClassified_nodup imports _ h
  · intro db imp h
    exact handlePreClassified_duplicate_noop db imp h
  · intro db imp hfresh hact hmon
    obtain ⟨himp, _⟩ := handlePreClassified_creates db imp hfresh hact hmon
    have hmem : ∃ rec ∈ (handlePreClassifiedImports db [imp]).1.imports,
        rec.messageId = imp.messageId := by
      rw [himp]
      exact ⟨mkEmailImport imp, List.mem_append_right _ (by simp), rfl⟩
    obtain ⟨hsame, hres⟩ :=
      handlePreClassified_duplicate_noop (handlePreClassifiedImports db [imp]).1 imp hmem
    refine ⟨?_, hsame, hres⟩
    rw [hsame, himp, List.filter_append, filter_messageId_nil hfresh]
    simp [mkEmailImport]

/-- Witness for claim C1: on an empty store, submitting `c1Imp` twice leaves
exactly one record with its messageId, and the second call reports
skipped 1 with no errors. -/
theorem stagedImport_unique_per_messageId_witness :
    ((handlePreClassifiedImports (handlePreClassifiedImports ⟨[], []⟩ [c1Imp]).1
        [c1Imp]).1.imports.filter (fun r => r.messageId == c1Imp.messageId)).length = 1 ∧
    (handlePreClassifiedImports (handlePreClassifiedImports ⟨[], []⟩ [c1Imp]).1
        [c1Imp]).2 = ⟨0, 1, []⟩ :=
  ⟨(stagedImport_unique_per_messageId.2.2 ⟨[], []⟩ c1Imp (by simp) (by simp)
      (by decide)).1,
   (stagedImport_unique_per_messageId.2.2 ⟨[], []⟩ c1Imp (by simp) (by simp)
      (by decide)).2.2⟩

/-- Claim C2: `classifyByRules` walks the fixed label priority list with
`other` first, so any message matched by an `other` rule classifies as
`other`; every rule match carries confidence exactly 0.95 and the reason of
the first applicable rule of its label (declared order); and when no rule of
any label applies the result is `null`. -/
theorem classifyByRules_priority_spec (e : EmailMsg) :
    checkOrder = ["other", "interview", "rejection", "job_response", "follow_up"] ∧
    (anyRuleMatches e (CLASSIFICATION_RULES "other") = true →
      ∃ res, classifyByRules e = some res ∧ res.type = "other") ∧
    (∀ res, classifyByRules e = some res →
      res.confidence = 0.95 ∧
      ∃ r, (CLASSIFICATION_RULES res.type).find? (matchesCRule e) = some r ∧
        res = mkRuleResult res.type r) ∧
    ((∀ ty ∈ checkOrder, anyRuleMatches e (CLASSIFICATION_RULES ty) = false) →
      classifyByRules e = none) := by
  refine ⟨rfl, ?_, ?_, ?_⟩
  · intro h
    obtain ⟨r, hr⟩ := find?_isSome_of_any h
    refine ⟨mkRuleResult "other" r, ?_, rfl⟩
    unfold classifyByRules checkOrder
    rw [List.findSome?_cons, hr]
    rfl
  · intro res h
    obtain ⟨_, hconf, _, r, hr, hres⟩ := findSomeRules_shape e checkOrder res h
    exact ⟨by rw [hconf, conf095_eq], r, hr, hres⟩
  · intro h
    exact findSomeRules_none e checkOrder h

/-- Witness for claim C2: `ruleWitnessBoth` matches both an `other` rule and
an interview rule, and classifies as `other`. -/
theorem classifyByRules_priority_spec_witness :
    anyRuleMatches ruleWitnessBoth (CLASSIFICATION_RULES "other") = true ∧
    anyRuleMatches ruleWitnessBoth (CLASSIFICATION_RULES "interview") = true ∧
    ∃ res, classifyByRules ruleWitnessBoth = some res ∧ res.type = "other" :=
  ⟨by decide, by decide,
   (classifyByRules_priority_spec ruleWitnessBoth).2.1 (by decide)⟩

/-- Claim C9: the rule tables define rules only for the five labels of the
priority list, so `classifyByRules` never returns `job_application` or
`offer`. -/
theorem classifyByRules_never_application_or_offer :
    ∀ (e : EmailMsg) (res : RuleResult), classifyByRules e = some res →
      res.type ≠ "job_application" ∧ res.type ≠ "offer" := by
  intro e res h
  obtain ⟨hmem, _, _, _⟩ := findSomeRules_shape e checkOrder res h
  unfold checkOrder at hmem
  simp [List.mem_cons] at hmem
  rcases hmem with hty | hty | hty | hty | hty <;> rw [hty] <;>
    exact ⟨by decide, by decide⟩

/-- Witness for claim C9: a concrete rule classification, which is neither
`job_application` nor `offer`. -/
theorem classifyByRules_never_application_or_offer_witness :
    classifyByRules ruleWitnessInterview = some ruleWitnessInterviewRes ∧
    ruleWitnessInterviewRes.type ≠ "job_application" ∧
    ruleWitnessInterviewRes.type ≠ "offer" :=
  ⟨by rfl,
   (classifyByRules_never_application_or_offer ruleWitnessInterview
     ruleWitnessInterviewRes (by rfl)).1,
   (classifyByRules_never_application_or_offer ruleWitnessInterview
     ruleWitnessInterviewRes (by rfl)).2⟩

theorem mergeField_cases (e n : Option String) :
    mergeField e n =
      if jsTruthy e = true then e else if jsTruthy n = true then n else e := by
  unfold mergeField
  cases he : jsTruthy e <;> cases hn : jsTruthy n <;> simp [he, hn]

/-- Claim C6: `mergeExtractedData` is fill-only — every field keeps the
existing value whenever it is present (JavaScript-truthy) and takes the new
value only when the existing one is absent; in particular the spec's
concrete example merges as stated. -/
theorem mergeExtractedData_fill_only :
    (∀ e n : ExtractedData,
      (mergeExtractedData e n).company =
        (if jsTruthy e.company = true then e.company
         else if jsTruthy n.company = true then n.company else e.company) ∧
      (mergeExtractedData e n).jobTitle =
        (if jsTruthy e.jobTitle = true then e.jobTitle
         else if jsTruthy n.jobTitle = true then n.jobTitle else e.jobTitle) ∧
      (mergeExtractedData e n).location =
        (if jsTruthy e.location = true then e.location
         else if jsTruthy n.location = true then n.location else e.location) ∧
      (mergeExtractedData e n).applicationUrl =
        (if jsTruthy e.applicationUrl = true then e.applicationUrl
         else if jsTruthy n.applicationUrl = true then n.applicationUrl
         else e.applicationUrl) ∧
      (mergeExtractedData e n).source =
        (if jsTruthy e.source = true then e.source
         else if jsTruthy n.source = true then n.source else e.source) ∧
      (mergeExtractedData e n).jobType =
        (if jsTruthy e.jobType = true then e.jobType
         else if jsTruthy n.jobType = true then n.jobType else e.jobType)) ∧
    mergeExtractedData ⟨some "Acme", none, none, none, none, none⟩
        ⟨some "Other", some "Eng", none, none, none, none⟩ =
      ⟨some "Acme", some "Eng", none, none, none, none⟩ := by
  constructor
  · intro e n
    refine ⟨?_, ?_, ?_, ?_, ?_, ?_⟩ <;>
      simp [mergeExtractedData, mergeField_cases]
  · decide

/-- Claim C7: a detected correction is appended to the few-shot pool exactly
when re-running the rule engine on the corrected message yields no match;
when a rule would match and both types are job-related, the correction is
still routed to the server's PATCH update of the staged record's
classification. -/
theorem correction_highVariance_partition :
    ∀ (emailData : EmailMsg) (origType correctedType : String)
      (out : ScanEntryOut),
      processCorrectionEntry emailData origType correctedType = some out →
      (out.highVariance = true ↔ classifyByRules emailData = none) ∧
      (classifyByRules emailData ≠ none → origType ≠ "other" →
        correctedType ≠ "other" →
        out.highVariance = false ∧
        out.action = some (.patchCorrection emailData.messageId origType
          correctedType)) := by
  intro emailData origType correctedType out h
  unfold processCorrectionEntry at h
  split at h
  · exact absurd h (by simp)
  · obtain rfl : _ = out := Option.some.inj h
    constructor
    · unfold isHighVarianceCorrection
      cases hc : classifyByRules emailData <;> simp [hc]
    · intro hrule h1 h2
      have hb1 : (origType == "other") = false := by simpa using h1
      have hb2 : (correctedType == "other") = false := by simpa using h2
      constructor
      · unfold isHighVarianceCorrection
        cases hc : classifyByRules emailData with
        | none => exact absurd hc hrule
        | some _ => simp [hc]
      · simp [hb1, hb2]
        exact ⟨h1, h2⟩

/-- Witness for claim C7: correcting the rule-matched `ruleWitnessInterview`
from `rejection` to `interview` is excluded from the few-shot pool but still
routed to the PATCH update. -/
theorem correction_highVariance_partition_witness :
    processCorrectionEntry ruleWitnessInterview "rejection" "interview" =
      some c7Out ∧
    c7Out.highVariance = false ∧
    c7Out.action = some (.patchCorrection "m1" "rejection" "interview") :=
  have hne : classifyByRules ruleWitnessInterview ≠ none := by
    rw [show classifyByRules ruleWitnessInterview = some ruleWitnessInterviewRes
      from rfl]
    exact Option.some_ne_none _
  ⟨by rfl,
   ((correction_highVariance_partition ruleWitnessInterview "rejection"
       "interview" c7Out (by rfl)).2 hne (by decide) (by decide)).1,
   ((correction_highVariance_partition ruleWitnessInterview "rejection"
       "interview" c7Out (by rfl)).2 hne (by decide) (by decide)).2⟩

/-- Counterexample for claim C4: the server-side `classifyEmail` answers a
failed model call with a default classification of type `other` (confidence
0), not with a null result. -/
theorem classifyEmail_error_default_other :
    classifyEmail (.err "network error") =
      ⟨"other", conf00, "Classification failed: network error",
       emptyServerExtracted⟩ ∧
    (classifyEmail (.err "network error")).type = "other" ∧
    conf00 = 0 :=
  ⟨rfl, rfl, conf00_eq⟩

/-- Claim C4 as amended: the local script's `classifyWithOllama` returns a
null result on every failure (network error, non-success HTTP status,
unparseable response) without throwing, while the server-side
`classifyEmail` instead returns the default `other` classification with
confidence 0 on any failure. -/
theorem llm_failure_null_vs_default :
    classifyWithOllama .fetchError = none ∧
    (∀ status, classifyWithOllama (.httpNotOk status) = none) ∧
    classifyWithOllama .badResponseJson = none ∧
    (∀ msg, (classifyEmail (.err msg)).type = "other" ∧
      (classifyEmail (.err msg)).confidence = 0) :=
  ⟨rfl, fun _ => rfl, rfl, fun _ => ⟨rfl, conf00_eq⟩⟩

/-- Claim C5 (code bug): the corrections scanner routes a demotion to a
single-message DELETE request by messageId, but the ingestion route exports
no DELETE handler, so the endpoint does not accept the deletion. -/
theorem demotion_delete_unhandled :
    processCorrectionEntry demotionEmail "rejection" "other" =
      some ⟨true, some (.deleteRequest "demo-id")⟩ ∧
    deleteFromServerMethod = .DELETE ∧
    deleteFromServerMethod ∉ emailSyncExportedMethods :=
  ⟨by rfl, rfl, by decide⟩

/-- Claim C3: at the staging boundary a newly classified message is inserted
as a new `pending` StagedImport exactly when its classification is
job-related and its confidence is at least 0.6, in both the server-local
path (`handleLocalMode`) and the local producer; a discarded message is
still marked processed in the external tag store; and the boundary values
0.6 / 0.59 behave as the spec states. -/
theorem staging_confidence_gate :
    (∀ (db : Db) (p : ParsedServerEmail) (c : EmailClassification),
      findImportByMessageId db.imports p.messageId = none →
      (findActiveMonitoredAccount db.accounts).isSome = true →
      (((handleLocalModeStep db p c).db.imports =
          db.imports ++ [mkEmailImportFromParsed p c]) ↔
        (c.type ≠ "other" ∧ (0.6 : ℚ) ≤ c.confidence)) ∧
      (mkEmailImportFromParsed p c).status = "pending" ∧
      (¬(c.type ≠ "other" ∧ (0.6 : ℚ) ≤ c.confidence) →
        (handleLocalModeStep db p c).db = db ∧
        (handleLocalModeStep db p c).markedProcessed = true)) ∧
    (∀ c : LocalClassification,
      ((localSyncStep (some c)).queued = true ↔
        (c.type ≠ "other" ∧ (0.6 : ℚ) ≤ c.confidence)) ∧
      (localSyncStep (some c)).markedProcessed = true) ∧
    localSyncStep none = ⟨false, false⟩ ∧
    meetsConfidenceThreshold ⟨"interview", threshold06, "", emptyServerExtracted⟩
      threshold06 = true ∧
    meetsConfidenceThreshold ⟨"interview", conf059, "", emptyServerExtracted⟩
      threshold06 = false ∧
    localSyncStep (some ⟨"interview", threshold06, emptyLocalExtracted⟩) =
      ⟨true, true⟩ ∧
    localSyncStep (some ⟨"interview", conf059, emptyLocalExtracted⟩) =
      ⟨false, true⟩ ∧
    threshold06 = 0.6 ∧ conf059 = 0.59 := by
  refine ⟨?_, ?_, rfl, by decide, by decide, by decide, by decide,
    threshold06_eq, conf059_eq⟩
  · intro db p c h1 h2
    obtain ⟨y, hy⟩ := Option.isSome_iff_exists.mp h2
    have hgate :
        (!(isJobRelated c) || !(meetsConfidenceThreshold c threshold06)) = false ↔
          (c.type ≠ "other" ∧ (0.6 : ℚ) ≤ c.confidence) := by
      rw [← threshold06_eq]
      simp [isJobRelated, meetsConfidenceThreshold]
    by_cases hP : c.type ≠ "other" ∧ (0.6 : ℚ) ≤ c.confidence
    · have hg := hgate.mpr hP
      have hstep : handleLocalModeStep db p c =
          ⟨{ db with imports := db.imports ++ [mkEmailImportFromParsed p c] },
           1, 0, true⟩ := by
        unfold handleLocalModeStep
        rw [h1, hg, hy]
        rfl
      refine ⟨?_, rfl, fun hn => absurd hP hn⟩
      rw [hstep]
      exact iff_of_true rfl hP
    · have hg : (!(isJobRelated c) || !(meetsConfidenceThreshold c threshold06))
          = true := by
        cases hbool : (!(isJobRelated c) || !(meetsConfidenceThreshold c threshold06)) with
        | true => rfl
        | false => exact absurd (hgate.mp hbool) hP
      have hstep : handleLocalModeStep db p c = ⟨db, 0, 1, true⟩ := by
        unfold handleLocalModeStep
        rw [h1, hg]
        rfl
      refine ⟨?_, rfl, fun _ => ⟨by rw [hstep], by rw [hstep]⟩⟩
      rw [hstep]
      constructor
      · intro habs
        have hlen := congrArg List.length habs
        simp at hlen
      · intro hr
        exact absurd hr hP
  · intro c
    refine ⟨⟨?_, ?_⟩, ?_⟩
    · intro hq
      cases hcond : (!(isJobRelatedLocal c) || decide (c.confidence < threshold06)) with
      | true =>
        exfalso
        simp [localSyncStep, hcond] at hq
      | false =>
        obtain ⟨ha, hb⟩ := Bool.or_eq_false_iff.mp hcond
        constructor
        · have hj : isJobRelatedLocal c = true := by simpa using ha
          simpa [isJobRelatedLocal] using hj
        · have hb' : ¬(c.confidence < threshold06) := by simpa using hb
          rw [← threshold06_eq]
          exact le_of_not_lt hb'
    · intro hP
      have h1 : (!(isJobRelatedLocal c)) = false := by
        simp [isJobRelatedLocal]
        exact hP.1
      have h2 : (decide (c.confidence < threshold06)) = false := by
        rw [decide_eq_false_iff_not, threshold06_eq]
        exact not_lt.mpr hP.2
      simp [localSyncStep, h1, h2]
    · cases hcond : (!(isJobRelatedLocal c) || decide (c.confidence < threshold06)) <;>
        simp [localSyncStep, hcond]

/-- Witness for claim C3: a job-related classification at confidence exactly
0.6 is inserted as a pending StagedImport. -/
theorem staging_confidence_gate_witness :
    (handleLocalModeStep c3Db c3Parsed c3Cls).db.imports =
      c3Db.imports ++ [mkEmailImportFromParsed c3Parsed c3Cls] :=
  ((staging_confidence_gate.1 c3Db c3Parsed c3Cls rfl (by decide)).1).mpr
    ⟨by decide, le_of_eq threshold06_eq.symm⟩

/-- Counterexample for claim C8: on a message whose body is the literal
round-trip text but which carries no SEEK source indicator, rule-based
extraction leaves the company null (the claim demands "Acme"), although the
generic cascade still finds the job title. -/
theorem extract_roundtrip_counterexample :
    (extractByRules c8BareMsg).company = none ∧
    (extractByRules c8BareMsg).jobTitle = some "Senior Backend Engineer" :=
  ⟨by decide, by decide⟩

/-- Claim C8 as amended: for a SEEK-sourced message with the literal
round-trip body, extraction yields jobTitle "Senior Backend Engineer" and
company "Acme" with the corporate suffix "Pty Ltd" stripped by the value
cleaner. -/
theorem extract_roundtrip_seek :
    detectSource c8SeekMsg = some "SEEK" ∧
    (extractByRules c8SeekMsg).jobTitle = some "Senior Backend Engineer" ∧
    (extractByRules c8SeekMsg).company = some "Acme" ∧
    cleanVal "Acme Pty Ltd" = "Acme" :=
  ⟨by decide, by decide, by decide, by decide⟩

/-- Claim C10: when an email file lacks a Message-ID header, the local
parser assigns a freshly generated identifier from the timestamp and random
draw of the run, so two parses of the same file in runs with different
draws produce different messageIds, and the messageId-based duplicate check
does not recognize the re-parse as a duplicate. -/
theorem parse_headerless_nondeterministic :
    ∀ (f : RawEmail) (t₁ r₁ t₂ r₂ : Nat),
      f.messageIdHeader = none →
      (t₁, r₁) ≠ (t₂, r₂) →
      (parseEmailFileModel f t₁ r₁).messageId ≠
        (parseEmailFileModel f t₂ r₂).messageId ∧
      (∀ rec : EmailImportRec,
        rec.messageId = (parseEmailFileModel f t₁ r₁).messageId →
        findImportByMessageId [rec] (parseEmailFileModel f t₂ r₂).messageId =
          none) := by
  intro f t₁ r₁ t₂ r₂ hnone hne
  have hid : ∀ t r : Nat, (parseEmailFileModel f t r).messageId = genId t r := by
    intro t r
    simp [parseEmailFileModel, hnone]
  have hneq : genId t₁ r₁ ≠ genId t₂ r₂ := by
    intro h
    obtain ⟨h1, h2⟩ := genId_inj h
    exact hne (by rw [h1, h2])
  constructor
  · rw [hid, hid]
    exact hneq
  · intro rec hrec
    apply find?_none_of_all_ne
    intro r hr
    simp at hr
    subst hr
    rw [hrec, hid, hid]
    exact hneq

/-- Witness for claim C10: two parses of the headerless file at timestamps
1 and with draws 2 and 3 yield different messageIds. -/
theorem parse_headerless_nondeterministic_witness :
    (parseEmailFileModel c10File 1 2).messageId ≠
      (parseEmailFileModel c10File 1 3).messageId :=
  (parse_headerless_nondeterministic c10File 1 2 1 3 rfl (by decide)).1

end JobDash
